import Mathlib

/-!
Shallow embedding of the magalix-agent sources (`kuber/kube.go`,
`metrics/kubelet.go`) used to check the natural-language specification.

Go maps are modelled as association lists (`List (κ × α)`) with
insert-or-replace semantics; Go `int64` values (timestamps in UnixNano,
counters, multipliers) are modelled as `Int`, with Go's truncated integer
division written `Int.tdiv`; the zero `time.Time` is modelled as
timestamp `0`; `uuid.UUID` is modelled as `Nat` with `0` for `uuid.Nil`.
-/

set_option autoImplicit false

namespace Agent

/-! ### Go map model: association lists with insert-or-replace -/

/-- Lookup in a Go-map modelled as an association list. -/
def mapLookup {κ α : Type} [DecidableEq κ] : List (κ × α) → κ → Option α
  | [], _ => none
  | (k', v) :: rest, k => if k' = k then some v else mapLookup rest k

/-- `m[k] = v`: replace the binding of `k` if present, otherwise append. -/
def mapInsert {κ α : Type} [DecidableEq κ] : List (κ × α) → κ → α → List (κ × α)
  | [], k, v => [(k, v)]
  | (k', v') :: rest, k, v =>
      if k' = k then (k, v) :: rest else (k', v') :: mapInsert rest k v

theorem mapLookup_insert_self {κ α : Type} [DecidableEq κ]
    (m : List (κ × α)) (k : κ) (v : α) :
    mapLookup (mapInsert m k v) k = some v := by
  induction m with
  | nil => simp [mapInsert, mapLookup]
  | cons p rest ih =>
      obtain ⟨k', v'⟩ := p
      by_cases h : k' = k
      · simp [mapInsert, h, mapLookup]
      · simp [mapInsert, h, mapLookup, ih]

theorem mapLookup_insert_ne {κ α : Type} [DecidableEq κ]
    (m : List (κ × α)) (k k' : κ) (v : α) (h : k ≠ k') :
    mapLookup (mapInsert m k v) k' = mapLookup m k' := by
  induction m with
  | nil => simp [mapInsert, mapLookup, h]
  | cons p rest ih =>
      obtain ⟨k0, v0⟩ := p
      by_cases h0 : k0 = k
      · subst h0
        simp [mapInsert, mapLookup, h]
      · simp [mapInsert, h0, mapLookup, ih]

theorem mapInsert_keys {κ α : Type} [DecidableEq κ]
    (m : List (κ × α)) (k : κ) (v : α) (hk : k ∈ m.map Prod.fst) :
    (mapInsert m k v).map Prod.fst = m.map Prod.fst := by
  induction m with
  | nil => simp at hk
  | cons p rest ih =>
      obtain ⟨k0, v0⟩ := p
      by_cases h0 : k0 = k
      · simp [mapInsert, h0]
      · have hk' : k ∈ rest.map Prod.fst := by
          simp at hk
          rcases hk with h | h
          · exact absurd h.symm h0
          · simpa using h
        simp [mapInsert, h0, ih hk']

theorem mapInsert_keys_new {κ α : Type} [DecidableEq κ]
    (m : List (κ × α)) (k : κ) (v : α) (hk : k ∉ m.map Prod.fst) :
    (mapInsert m k v).map Prod.fst = m.map Prod.fst ++ [k] := by
  induction m with
  | nil => simp [mapInsert]
  | cons p rest ih =>
      obtain ⟨k0, v0⟩ := p
      simp at hk
      have h0 : k0 ≠ k := fun h => hk.1 h.symm
      simp [mapInsert, h0, ih (by simpa using hk.2)]

theorem mapInsert_keys_nodup {κ α : Type} [DecidableEq κ]
    (m : List (κ × α)) (k : κ) (v : α) (h : (m.map Prod.fst).Nodup) :
    ((mapInsert m k v).map Prod.fst).Nodup := by
  by_cases hk : k ∈ m.map Prod.fst
  · rwa [mapInsert_keys m k v hk]
  · rw [mapInsert_keys_new m k v hk]
    refine List.Nodup.append h (List.nodup_singleton k) ?_
    intro a ha hb
    simp at hb
    subst hb
    exact hk ha

theorem mapLookup_mem {κ α : Type} [DecidableEq κ]
    (m : List (κ × α)) (k : κ) (v : α) (h : mapLookup m k = some v) :
    (k, v) ∈ m := by
  induction m with
  | nil => simp [mapLookup] at h
  | cons p rest ih =>
      obtain ⟨k0, v0⟩ := p
      by_cases h0 : k0 = k
      · subst h0
        simp [mapLookup] at h
        subst h
        exact List.mem_cons_self _ _
      · simp [mapLookup, h0] at h
        exact List.mem_cons_of_mem _ (ih h)

/-! ### `kuber/kube.go`: pod-spec masking

Data model for the fields of the platform objects that the masking code
touches (`Env`, `Args` of containers, regular and init). -/

/-- The constant `maskedValue` from `kuber/kube.go`. -/
def maskedValue : String := "**MASKED**"

structure EnvVar where
  name : String
  value : String
  deriving DecidableEq, Repr

structure KContainer where
  name : String
  image : String
  env : List EnvVar
  args : List String
  deriving DecidableEq, Repr

structure PodSpec where
  containers : List KContainer
  initContainers : List KContainer
  deriving DecidableEq, Repr

structure PodTemplateSpec where
  spec : PodSpec
  deriving DecidableEq, Repr

/-- `maskEnvVars` from `kuber/kube.go`: an env var whose `Value` is non-empty
is replaced by the mask token; empty values are kept as-is. -/
def maskEnvVars (env : List EnvVar) : List EnvVar :=
  env.map (fun envVar =>
    if envVar.value ≠ "" then { envVar with value := maskedValue } else envVar)

/-- `maskArgs` from `kuber/kube.go`: every command argument is replaced. -/
def maskArgs (args : List String) : List String :=
  args.map (fun _ => maskedValue)

/-- `maskContainers` from `kuber/kube.go`. -/
def maskContainers (containers : List KContainer) : List KContainer :=
  containers.map (fun container =>
    { container with env := maskEnvVars container.env, args := maskArgs container.args })

/-- `maskPodSpec` from `kuber/kube.go`: masks regular and init containers. -/
def maskPodSpec (podSpec : PodSpec) : PodSpec :=
  { containers := maskContainers podSpec.containers,
    initContainers := maskContainers podSpec.initContainers }

structure DeploymentSpec where
  replicas : Option Int
  template : PodTemplateSpec
  deriving DecidableEq, Repr

structure Deployment where
  name : String
  namespc : String
  spec : DeploymentSpec
  deriving DecidableEq, Repr

/-- The post-processing loop of `GetDeployments` (and of the other list
getters, which are textually identical): Go's
`for _, item := range deployments.Items` binds `item` to a *copy* of each
list element, so `maskPodSpec(&item.Spec.Template.Spec)` assigns the masked
containers to fields of the copy; the element stored in the returned list
keeps the values it was fetched with.  The computed masked spec is dropped. -/
def getDeploymentsMaskLoop (items : List Deployment) : List Deployment :=
  items.map (fun item =>
    let _maskedCopy :=
      { item with spec := { item.spec with template := { spec := maskPodSpec item.spec.template.spec } } }
    item)

/-- `GetStatefulSet` (the *single*-object getter) masks through a pointer to
the fetched object, so there the masking does take effect. -/
def getStatefulSetMask (templateSpec : PodSpec) : PodSpec :=
  maskPodSpec templateSpec

theorem getDeploymentsMaskLoop_id (items : List Deployment) :
    getDeploymentsMaskLoop items = items := by
  simp [getDeploymentsMaskLoop]

/-! ### `kuber/kube.go`: `SetResources` -/

/-- `strings.ToLower` restricted to the ASCII names that flow through
`SetResources` (modelled characterwise to stay kernel-computable). -/
def strToLower (s : String) : String := ⟨s.data.map Char.toLower⟩

structure RequestLimit where
  cpu : Option Int
  memory : Option Int
  deriving DecidableEq, Repr

structure ContainerResourcesRequirements where
  name : String
  requests : RequestLimit
  limits : RequestLimit
  deriving DecidableEq, Repr

structure TotalResources where
  replicas : Option Int
  containers : List ContainerResourcesRequirements
  deriving DecidableEq, Repr

structure RollingUpdateStrategy where
  partition : Option Int
  deriving DecidableEq, Repr

structure STSUpdateStrategy where
  type : String
  rollingUpdate : Option RollingUpdateStrategy
  deriving DecidableEq, Repr

structure StatefulSetSpec where
  replicas : Option Int
  updateStrategy : STSUpdateStrategy
  template : PodTemplateSpec
  deriving DecidableEq, Repr

structure StatefulSet where
  name : String
  namespc : String
  spec : StatefulSetSpec
  deriving DecidableEq, Repr

/-- One entry of `containerSpecs` in `SetResources`: which resource fields the
patch carries for one container (memory rendered as `"{n}Mi"`, cpu rendered as
millicores divided by 1000). -/
structure ContainerPatch where
  name : String
  limitsCpuMilli : Option Int
  limitsMemoryMi : Option Int
  requestsCpuMilli : Option Int
  requestsMemoryMi : Option Int
  deriving DecidableEq, Repr

/-- The strategic-merge patch body assembled by `SetResources`. -/
structure PatchBody where
  kind : String
  containerSpecs : List ContainerPatch
  replicas : Option Int
  deriving DecidableEq, Repr

/-- Outcome of `SetResources`: Go returns `(skipped bool, err error)` and
issues the patch request only on the fall-through path. -/
inductive SetResourcesResult where
  /-- `skipped = false` together with a non-nil error; no patch issued. -/
  | failed (msg : String)
  /-- `skipped = true` together with a reason; no patch issued. -/
  | skipped (reason : String)
  /-- The strategic-merge patch request was sent with this body. -/
  | patchSent (body : PatchBody)
  deriving DecidableEq, Repr

/-- The containerSpecs-building loop of `SetResources`; a container none of
whose four resource fields is set aborts with an error. -/
def buildContainerSpecs : List ContainerResourcesRequirements → Except String (List ContainerPatch)
  | [] => .ok []
  | container :: rest =>
      if container.limits.memory = none ∧ container.limits.cpu = none ∧
          container.requests.memory = none ∧ container.requests.cpu = none then
        .error ("invalid resources for container: " ++ container.name)
      else
        match buildContainerSpecs rest with
        | .error e => .error e
        | .ok specs =>
            .ok ({ name := container.name,
                   limitsCpuMilli := container.limits.cpu,
                   limitsMemoryMi := container.limits.memory,
                   requestsCpuMilli := container.requests.cpu,
                   requestsMemoryMi := container.requests.memory } :: specs)

/-- `SetResources` from `kuber/kube.go`.  The current StatefulSet spec (the
result of `GetStatefulSet`, consulted only when `kind` lowercases to
`"statefulset"`) is passed in as `getStatefulSetRes`. -/
def setResources (kind name namespc : String) (totalResources : TotalResources)
    (getStatefulSetRes : Except String StatefulSet) : SetResourcesResult :=
  if totalResources.containers.isEmpty ∧ totalResources.replicas = none then
    .failed "invalid resources passed, nothing to change"
  else
    let guarded : Option SetResourcesResult :=
      if strToLower kind = "statefulset" then
        match getStatefulSetRes with
        | .error e => some (.failed ("unable to get sts definition: " ++ e))
        | .ok statefulSet =>
            match statefulSet.spec.replicas with
            | none => none
            | some replicas =>
                if 1 < replicas then
                  if statefulSet.spec.updateStrategy.type = "RollingUpdate" then
                    -- no rollingUpdate spec, then Partition = 0
                    match statefulSet.spec.updateStrategy.rollingUpdate with
                    | none => none
                    | some rollingUpdate =>
                        match rollingUpdate.partition with
                        | none => none
                        | some partition =>
                            if partition ≠ 0 then
                              some (.skipped
                                "sts replicas > 1 and Spec.UpdateStrategy.RollingUpdate.Partition not equal 0")
                            else none
                  else
                    some (.skipped
                      "sts replicas > 1 and Spec.UpdateStrategy not equal 'RollingUpdate'")
                else none
      else none
    match guarded with
    | some result => result
    | none =>
        match buildContainerSpecs totalResources.containers with
        | .error e => .failed e
        | .ok containerSpecs =>
            -- setting replicas=nil makes k8s set the replicas to 1
            let replicas :=
              match totalResources.replicas with
              | some n => if 0 < n then some n else none
              | none => none
            .patchSent { kind := kind, containerSpecs := containerSpecs, replicas := replicas }

/-! ### Claim C1 -/

/-- A deployment as fetched from the platform, with a non-empty env value and
a command argument. -/
def c1Deployment : Deployment :=
  { name := "web", namespc := "default",
    spec := { replicas := some 1,
              template := { spec :=
                { containers :=
                    [{ name := "app", image := "img",
                       env := [{ name := "TOKEN", value := "secret" }],
                       args := ["--password=hunter2"] }],
                  initContainers := [] } } } }

/-- C1: the claim says every env value and argument in the pod specs returned
by the listing operations is `**MASKED**`.  The code intends this (it calls
`maskPodSpec` on each item, and the single-object `GetStatefulSet` masking
works), but the list getters iterate with `for _, item := range list.Items`,
so `maskPodSpec` rewrites a copy: the returned list still carries the
original secrets.  Evaluated at the failing input: the env value stays
`"secret"` and the argument stays `"--password=hunter2"`, neither masked,
while the masking function itself (as used through a pointer in
`GetStatefulSet`) would have masked both. -/
theorem C1_mask_never_applied_to_list_results :
    (∃ item ∈ getDeploymentsMaskLoop [c1Deployment],
       ∃ container ∈ item.spec.template.spec.containers,
         (∃ envVar ∈ container.env, envVar.value = "secret" ∧ envVar.value ≠ maskedValue) ∧
         (∃ arg ∈ container.args, arg = "--password=hunter2" ∧ arg ≠ maskedValue)) ∧
    (∀ container ∈ getStatefulSetMask c1Deployment.spec.template.spec |>.containers,
       (∀ envVar ∈ container.env, envVar.value = maskedValue) ∧
       (∀ arg ∈ container.args, arg = maskedValue)) := by
  constructor
  · exact ⟨c1Deployment, by decide⟩
  · decide

/-! ### Claim C10 -/

/-- C10: for a `SetResources` call with kind `StatefulSet` whose current spec
has more than one replica, a non-RollingUpdate update strategy — or a set,
non-zero `RollingUpdate.Partition` — makes the call return `skipped = true`
with a reason, and no patch request is sent (the outcome is `.skipped`, not
`.patchSent`). -/
theorem C10_statefulset_guard_skips
    (kind name namespc : String) (totalResources : TotalResources)
    (sts : StatefulSet) (replicas : Int)
    (hkind : strToLower kind = "statefulset")
    (hsome : ¬(totalResources.containers.isEmpty ∧ totalResources.replicas = none))
    (hrep : sts.spec.replicas = some replicas) (hgt : 1 < replicas)
    (hguard : sts.spec.updateStrategy.type ≠ "RollingUpdate" ∨
      (∃ ru p, sts.spec.updateStrategy.rollingUpdate = some ru ∧
        ru.partition = some p ∧ p ≠ 0)) :
    ∃ reason, setResources kind name namespc totalResources (.ok sts) = .skipped reason := by
  have hne : ¬(totalResources.containers = [] ∧ totalResources.replicas = none) := by
    simpa [List.isEmpty_iff] using hsome
  rcases hguard with hstrat | ⟨ru, p, hru, hp, hpne⟩
  · exact ⟨"sts replicas > 1 and Spec.UpdateStrategy not equal 'RollingUpdate'",
      by simp [setResources, hne, hkind, hrep, hgt, hstrat]⟩
  · by_cases hstrat : sts.spec.updateStrategy.type = "RollingUpdate"
    · exact ⟨"sts replicas > 1 and Spec.UpdateStrategy.RollingUpdate.Partition not equal 0",
        by simp [setResources, hne, hkind, hrep, hgt, hstrat, hru, hp, hpne]⟩
    · exact ⟨"sts replicas > 1 and Spec.UpdateStrategy not equal 'RollingUpdate'",
        by simp [setResources, hne, hkind, hrep, hgt, hstrat]⟩

/-- Witness for C10: a StatefulSet with 3 replicas and `OnDelete` strategy;
the decision carries `replicas = 3`. -/
theorem C10_statefulset_guard_skips_witness :
    ∃ reason,
      setResources "StatefulSet" "db" "default"
        { replicas := some 3, containers := [] }
        (.ok { name := "db", namespc := "default",
               spec := { replicas := some 3,
                         updateStrategy := { type := "OnDelete", rollingUpdate := none },
                         template := { spec := { containers := [], initContainers := [] } } } })
        = .skipped reason :=
  C10_statefulset_guard_skips "StatefulSet" "db" "default"
    { replicas := some 3, containers := [] }
    { name := "db", namespc := "default",
      spec := { replicas := some 3,
                updateStrategy := { type := "OnDelete", rollingUpdate := none },
                template := { spec := { containers := [], initContainers := [] } } } }
    3 (by decide) (by decide) rfl (by decide) (Or.inl (by decide))

/-! ### `metrics/kubelet.go`: rate table and rate calculator -/

/-- `KubeletValue` from `metrics/kubelet.go` (timestamp in UnixNano). -/
structure KubeletValue where
  timestamp : Int
  value : Int
  deriving DecidableEq, Repr

/-- `time.Second.Nanoseconds()`. -/
def nanosPerSecond : Int := 1000000000

/-- Metric type tags.  Modelled from the spec: the `Metrics` type constants
(`TypeCluster` …) live outside the provided sources; §6 of the spec fixes the
wire values `cluster`, `node`, `pod`, `pod_container`. -/
def TypeCluster : String := "cluster"

/-- See `TypeCluster`. -/
def TypeNode : String := "node"

/-- See `TypeCluster`. -/
def TypePod : String := "pod"

/-- See `TypeCluster`. -/
def TypePodContainer : String := "pod_container"

/-- The metric record accumulated by `GetMetrics` (UUIDs as `Nat`, `0` for
`uuid.Nil`). -/
structure Metrics where
  name : String
  type : String
  node : Nat
  application : Nat
  service : Nat
  container : Nat
  podName : String
  timestamp : Int
  value : Int
  additionalTags : List (String × String) := []
  deriving DecidableEq, Repr

/-- `getKey` from `GetMetrics`:
`fmt.Sprintf("%s-%s:%s%s", entity, measurement, parentKey, entityKey)` with
`parentKey` suffixed by `":"` when non-empty. -/
def getKey (entity parentKey entityKey measurement : String) : String :=
  let parentKey := if parentKey ≠ "" then parentKey ++ ":" else parentKey
  entity ++ "-" ++ measurement ++ ":" ++ parentKey ++ entityKey

/-- `calcRate` from `GetMetrics`.  `previous` is the outcome of
`getPreviousValue` on the key; Go's `int64` division truncates toward zero,
hence `Int.tdiv`. -/
def calcRate (previous : Option KubeletValue) (timestamp : Int)
    (value multiplier : Int) : Except String Int :=
  match previous with
  | none => .error "No previous value"
  | some prev =>
      let duration := timestamp - prev.timestamp
      if duration ≤ nanosPerSecond then
        .error "timestamp less than or equal previous one"
      else
        -- we have a restart for this entity so the cumulative value is
        -- reset so we should reset as well
        let previousValue := if prev.value > value then 0 else prev.value
        .ok (Int.tdiv (multiplier * (value - previousValue)) duration)

/-- Per-cycle accumulator: the shared rate table (`kubelet.previous`) and the
shared metrics slice of one `GetMetrics` invocation. -/
structure St where
  table : List (String × KubeletValue)
  metrics : List Metrics
  deriving Repr

/-- `addMetricValue` from `GetMetrics` (zero timestamps default to
`tickTime`). -/
def addMetricValue (tickTime : Int) (measurementType measurement : String)
    (nodeID applicationID serviceID containerID : Nat) (podName : String)
    (timestamp value : Int) (st : St) : St :=
  let timestamp := if timestamp = 0 then tickTime else timestamp
  { st with metrics := st.metrics ++
      [{ name := measurement, type := measurementType, node := nodeID,
         application := applicationID, service := serviceID,
         container := containerID, podName := podName,
         timestamp := timestamp, value := value }] }

/-- `addMetricValueWithTags` from `GetMetrics` (no zero-timestamp
substitution in the source). -/
def addMetricValueWithTags (measurementType measurement : String)
    (nodeID applicationID serviceID containerID : Nat) (podName : String)
    (timestamp value : Int) (additionalTags : List (String × String)) (st : St) : St :=
  { st with metrics := st.metrics ++
      [{ name := measurement, type := measurementType, node := nodeID,
         application := applicationID, service := serviceID,
         container := containerID, podName := podName,
         timestamp := timestamp, value := value,
         additionalTags := additionalTags }] }

/-- `addMetricValueRate` from `GetMetrics`: computes the rate from the stored
previous point, stores the new point unconditionally, and appends a metric
only when the rate computation succeeded. -/
def addMetricValueRate (tickTime : Int)
    (measurementType parentKey entityKey measurement : String)
    (nodeID applicationID serviceID containerID : Nat) (pod : String)
    (timestamp value multiplier : Int) (st : St) : St :=
  let timestamp := if timestamp = 0 then tickTime else timestamp
  let key := getKey measurementType parentKey entityKey measurement
  let rateRes := calcRate (mapLookup st.table key) timestamp value multiplier
  let st := { st with table := mapInsert st.table key ⟨timestamp, value⟩ }
  match rateRes with
  | .error _ => st
  | .ok rate =>
      addMetricValue tickTime measurementType measurement nodeID applicationID
        serviceID containerID pod timestamp rate st

/-- `collectGarbage` from `metrics/kubelet.go`: entries whose stored timestamp
is more than one hour before `now` are dropped. -/
def collectGarbage (now : Int) (previous : List (String × KubeletValue)) :
    List (String × KubeletValue) :=
  previous.filter (fun p => ¬(now - p.2.timestamp > 3600 * nanosPerSecond))

/-! ### Claim C4 -/

/-- C4: with a stored previous point `(t0, v0)`, a call at `(t1, v1)` with
`t1 - t0` over one second and `v1 < v0` takes the counter-reset branch: the
previous value is treated as `0` and the result is
`multiplier * v1 / (t1 - t0)` (truncated int64 division, nanoseconds). -/
theorem C4_counter_reset (t0 v0 t1 v1 multiplier : Int)
    (hdur : nanosPerSecond < t1 - t0) (hreset : v1 < v0) :
    calcRate (some ⟨t0, v0⟩) t1 v1 multiplier
      = .ok (Int.tdiv (multiplier * v1) (t1 - t0)) := by
  simp only [calcRate, not_le.mpr hdur, if_false, if_neg]
  simp [not_le.mpr hdur, hreset]

/-- Witness for C4, the spec's "counter reset" scenario scaled to a duration
the code accepts: previous `(0, 10⁹)`, new `(2·10⁹, 10⁷)`, multiplier 1000:
rate `= 1000 * 10⁷ / (2·10⁹) = 5`. -/
theorem C4_counter_reset_witness :
    calcRate (some ⟨0, 1000000000⟩) 2000000000 10000000 1000 = .ok 5 := by
  have h := C4_counter_reset 0 1000000000 2000000000 10000000 1000
    (by decide) (by decide)
  rw [h]
  exact congrArg Except.ok (by decide)

/-! ### Claim C5 -/

/-- C5: `addMetricValueRate` always stores the new (timestamp, value) pair
under the call's key (with a zero timestamp replaced by the tick time), and
whenever the rate computation fails it appends no metric record. -/
theorem C5_rate_error_not_emitted_but_stored (tickTime : Int)
    (measurementType parentKey entityKey measurement : String)
    (nodeID applicationID serviceID containerID : Nat) (pod : String)
    (timestamp value multiplier : Int) (st : St) :
    mapLookup (addMetricValueRate tickTime measurementType parentKey entityKey
        measurement nodeID applicationID serviceID containerID pod timestamp
        value multiplier st).table
        (getKey measurementType parentKey entityKey measurement)
      = some ⟨if timestamp = 0 then tickTime else timestamp, value⟩ ∧
    (∀ e, calcRate
        (mapLookup st.table (getKey measurementType parentKey entityKey measurement))
        (if timestamp = 0 then tickTime else timestamp) value multiplier = .error e →
      (addMetricValueRate tickTime measurementType parentKey entityKey
          measurement nodeID applicationID serviceID containerID pod timestamp
          value multiplier st).metrics = st.metrics) := by
  constructor
  · unfold addMetricValueRate
    cases h : calcRate
        (mapLookup st.table (getKey measurementType parentKey entityKey measurement))
        (if timestamp = 0 then tickTime else timestamp) value multiplier with
    | error e => simp [h, mapLookup_insert_self]
    | ok rate => simp [h, addMetricValue, mapLookup_insert_self]
  · intro e herr
    unfold addMetricValueRate
    simp [herr]

/-- Witness for C5: empty rate table, so the computation fails with
"No previous value"; no metric is emitted and the point is stored. -/
theorem C5_rate_error_not_emitted_but_stored_witness :
    mapLookup (addMetricValueRate 1 "node" "" "n1" "cpu/usage_rate" 7 0 0 0 ""
        7000000000 42 1000 ⟨[], []⟩).table
        (getKey "node" "" "n1" "cpu/usage_rate")
      = some ⟨7000000000, 42⟩ ∧
    (addMetricValueRate 1 "node" "" "n1" "cpu/usage_rate" 7 0 0 0 ""
        7000000000 42 1000 ⟨[], []⟩).metrics = [] := by
  have h := C5_rate_error_not_emitted_but_stored 1 "node" "" "n1" "cpu/usage_rate"
    7 0 0 0 "" 7000000000 42 1000 ⟨[], []⟩
  refine ⟨by simpa using h.1, ?_⟩
  have h2 := h.2 "No previous value" (by rfl)
  simpa using h2

/-! ### `withBackoff` from `metrics/kubelet.go`

The Go loop increments `try`, invokes the wrapped function, returns on
success, returns "max retries exceeded" once `try > maxRetry`, and otherwise
sleeps `sleep * ((try-1)%10 + 1)` and loops.  The embedding returns the
number of invocations of `fn`, the final outcome, and the list of sleeps
performed (in order).  `fn t` is the outcome of the `t`-th invocation. -/

def withBackoffFrom {α : Type} (fn : Nat → Except String α) (maxRetry sleep : Nat) :
    Nat → Nat × Except String α × List Nat
  | tryN =>
    let t := tryN + 1
    match fn t with
    | .ok a => (1, .ok a, [])
    | .error e =>
        if h : maxRetry < t then (1, .error ("max retries exceeded: " ++ e), [])
        else
          -- NOTE max multiplier = 10
          let timeout := sleep * ((t - 1) % 10 + 1)
          let r := withBackoffFrom fn maxRetry sleep t
          (r.1 + 1, r.2.1, timeout :: r.2.2)
  termination_by tryN => maxRetry + 1 - tryN
  decreasing_by omega

/-- `withBackoff`: the loop starts with `try = 0`. -/
def withBackoff {α : Type} (fn : Nat → Except String α) (maxRetry sleep : Nat) :
    Nat × Except String α × List Nat :=
  withBackoffFrom fn maxRetry sleep 0

/-- One unfolding of the loop body. -/
theorem withBackoffFrom_eq {α : Type} (fn : Nat → Except String α)
    (maxRetry sleep tryN : Nat) :
    withBackoffFrom fn maxRetry sleep tryN =
      match fn (tryN + 1) with
      | .ok a => (1, .ok a, [])
      | .error e =>
          if maxRetry < tryN + 1 then
            (1, .error ("max retries exceeded: " ++ e), [])
          else
            ((withBackoffFrom fn maxRetry sleep (tryN + 1)).1 + 1,
             (withBackoffFrom fn maxRetry sleep (tryN + 1)).2.1,
             sleep * (tryN % 10 + 1) :: (withBackoffFrom fn maxRetry sleep (tryN + 1)).2.2) := by
  conv_lhs => rw [withBackoffFrom]
  cases fn (tryN + 1) with
  | ok a => rfl
  | error e =>
      by_cases h : maxRetry < tryN + 1
      · simp [h]
      · simp [h]

/-- Behaviour of the loop from an arbitrary counter value: at least one and at
most `maxRetry + 1 - tryN` invocations, the sleeps follow the
`sleep * ((try-1) % 10 + 1)` schedule, and an error is only returned once the
budget is exhausted. -/
theorem withBackoffFrom_spec {α : Type} (fn : Nat → Except String α)
    (maxRetry sleep : Nat) :
    ∀ k tryN, maxRetry + 1 - tryN ≤ k →
      (1 ≤ (withBackoffFrom fn maxRetry sleep tryN).1) ∧
      ((withBackoffFrom fn maxRetry sleep tryN).1 ≤ maxRetry + 1 - tryN ∨
        (withBackoffFrom fn maxRetry sleep tryN).1 = 1) ∧
      ((withBackoffFrom fn maxRetry sleep tryN).2.2 =
        (List.range ((withBackoffFrom fn maxRetry sleep tryN).1 - 1)).map
          (fun i => sleep * ((tryN + i) % 10 + 1))) ∧
      (∀ e, (withBackoffFrom fn maxRetry sleep tryN).2.1 = .error e →
        (withBackoffFrom fn maxRetry sleep tryN).1 = maxRetry + 1 - tryN ∨
          (maxRetry < tryN ∧ (withBackoffFrom fn maxRetry sleep tryN).1 = 1)) := by
  intro k
  induction k with
  | zero =>
      intro tryN hk
      have hlt : maxRetry < tryN + 1 := by omega
      rw [withBackoffFrom_eq]
      cases hfn : fn (tryN + 1) with
      | ok a => simp
      | error e =>
          dsimp only
          rw [if_pos hlt]
          simp
          omega
  | succ k ih =>
      intro tryN hk
      rw [withBackoffFrom_eq]
      cases hfn : fn (tryN + 1) with
      | ok a => simp
      | error e =>
          dsimp only
          by_cases hlt : maxRetry < tryN + 1
          · rw [if_pos hlt]
            simp
            omega
          · rw [if_neg hlt]
            have hrec := ih (tryN + 1) (by omega)
            obtain ⟨h1, h2, h3, h4⟩ := hrec
            refine ⟨by simp, by simp; omega, ?_, ?_⟩
            · have hsub : (withBackoffFrom fn maxRetry sleep (tryN + 1)).1 - 1 + 1
                  = (withBackoffFrom fn maxRetry sleep (tryN + 1)).1 := by omega
              simp only [Nat.add_sub_cancel]
              rw [← hsub, List.range_succ_eq_map, List.map_cons, List.map_map]
              simp only [Nat.add_zero]
              refine congrArg₂ _ rfl ?_
              rw [h3]
              refine congrArg₂ _ ?_ rfl
              funext i
              simp only [Function.comp_apply]
              congr 2
              omega
            · intro e' he'
              simp only at he'
              rcases h4 e' he' with h | h
              · left; simp; omega
              · left; simp; omega

/-! ### Claim C6 -/

/-- C6 as stated is false: with the default `maxRetries = 5` and an
always-failing wrapped function, the function is invoked **6** times before
the helper returns "max retries exceeded": the loop calls `fn` once more
after `try` reaches `maxRetry`, because the exhaustion check runs after the
call. -/
theorem C6_counterexample :
    (withBackoff (fun _ => (.error "boom" : Except String Unit)) 5 300).2.1
      = .error "max retries exceeded: boom" ∧
    (withBackoff (fun _ => (.error "boom" : Except String Unit)) 5 300).1 = 6 ∧
    ¬((withBackoff (fun _ => (.error "boom" : Except String Unit)) 5 300).1 ≤ 5) := by
  refine ⟨?_, ?_, ?_⟩ <;> simp [withBackoff, withBackoffFrom]

/-- C6 amended: the wrapped function is invoked at least once and at most
`max_retries + 1` times (so 6 with the default 5); when the helper returns an
error, exactly `max_retries + 1` invocations happened; the sleep before retry
number `try` (1-based, i.e. the `(try+1)`-th invocation) is
`base_sleep * (((try-1) mod 10) + 1)`. -/
theorem C6_backoff_attempt_bound_and_sleeps {α : Type}
    (fn : Nat → Except String α) (maxRetry sleep : Nat) :
    1 ≤ (withBackoff fn maxRetry sleep).1 ∧
    (withBackoff fn maxRetry sleep).1 ≤ maxRetry + 1 ∧
    ((withBackoff fn maxRetry sleep).2.2 =
      (List.range ((withBackoff fn maxRetry sleep).1 - 1)).map
        (fun i => sleep * (i % 10 + 1))) ∧
    (∀ e, (withBackoff fn maxRetry sleep).2.1 = .error e →
      (withBackoff fn maxRetry sleep).1 = maxRetry + 1) := by
  unfold withBackoff
  obtain ⟨h1, h2, h3, h4⟩ :=
    withBackoffFrom_spec fn maxRetry sleep (maxRetry + 1) 0 (by omega)
  refine ⟨h1, by omega, ?_, ?_⟩
  · rw [h3]
    simp
  · intro e he
    rcases h4 e he with h | h
    · simpa using h
    · omega

/-- Witness for C6 amended: two retries allowed, always-failing function:
3 invocations, sleeps 300 ms then 600 ms. -/
theorem C6_backoff_attempt_bound_and_sleeps_witness :
    (withBackoff (fun _ => (.error "boom" : Except String Unit)) 2 300).1 = 3 ∧
    (withBackoff (fun _ => (.error "boom" : Except String Unit)) 2 300).2.2
      = [300, 600] := by
  have h := C6_backoff_attempt_bound_and_sleeps
    (fun _ => (.error "boom" : Except String Unit)) 2 300
  have herr : (withBackoff (fun _ => (.error "boom" : Except String Unit)) 2 300).2.1
      = .error "max retries exceeded: boom" := by
    simp [withBackoff, withBackoffFrom]
  have hc := h.2.2.2 _ herr
  refine ⟨hc, ?_⟩
  rw [h.2.2.1, hc]
  rfl

/-! ### Claim C7: the "resource not found" tolerance of the two fetches -/

/-- The error fragment tested with `strings.Contains`. -/
def notFoundErrorFragment : String := "the server could not find the requested resource"

/-- `sub` is a starting segment of the second list. -/
def charListStartsWith : List Char → List Char → Bool
  | [], _ => true
  | _ :: _, [] => false
  | c :: cs, d :: ds => c = d && charListStartsWith cs ds

/-- Scan of all suffixes, as in `strings.Contains`. -/
def charListContainsSub (sub : List Char) : List Char → Bool
  | [] => charListStartsWith sub []
  | c :: cs => charListStartsWith sub (c :: cs) || charListContainsSub sub cs

/-- `strings.Contains(s, sub)`. -/
def strContains (s sub : String) : Bool := charListContainsSub sub.data s.data

/-- The function literal wrapped by `withBackoff` for the `stats/summary`
fetch: a `GetBytes` error whose message contains the "not found" fragment is
converted into a success with body `"{}"`. -/
def summaryFetchClosure (getBytesRes : Except String String) : Except String String :=
  match getBytesRes with
  | .ok bytes => .ok bytes
  | .error e =>
      if strContains e notFoundErrorFragment then .ok "{}"
      else .error ("{kubelet} unable to get summary from node: " ++ e)

/-- The function literal wrapped by `withBackoff` for the `metrics/cadvisor`
fetch: the same tolerance, with an empty payload. -/
def cadvisorFetchClosure (getBytesRes : Except String String) : Except String String :=
  match getBytesRes with
  | .ok bytes => .ok bytes
  | .error e =>
      if strContains e notFoundErrorFragment then .ok ""
      else .error ("{kubelet} unable to get cadvisor from node: " ++ e)

/-- C7: when the first `GetBytes` attempt fails with a message containing
"the server could not find the requested resource", the backoff-wrapped
summary fetch performs exactly one invocation (no retries, no sleeps) and
returns success with the empty document `{}`; the cadvisor fetch behaves the
same with an empty payload. -/
theorem C7_not_found_treated_as_empty (getBytes : Nat → Except String String)
    (maxRetry sleep : Nat) (e : String)
    (h1 : getBytes 1 = .error e)
    (h2 : strContains e notFoundErrorFragment = true) :
    withBackoff (fun t => summaryFetchClosure (getBytes t)) maxRetry sleep
      = (1, .ok "{}", []) ∧
    withBackoff (fun t => cadvisorFetchClosure (getBytes t)) maxRetry sleep
      = (1, .ok "", []) := by
  constructor
  · unfold withBackoff
    rw [withBackoffFrom_eq]
    simp [h1, summaryFetchClosure, h2]
  · unfold withBackoff
    rw [withBackoffFrom_eq]
    simp [h1, cadvisorFetchClosure, h2]

/-- Witness for C7 at a concrete failing endpoint. -/
theorem C7_not_found_treated_as_empty_witness :
    withBackoff
      (fun t => summaryFetchClosure
        ((fun _ => (.error notFoundErrorFragment : Except String String)) t)) 5 300
      = (1, .ok "{}", []) ∧
    withBackoff
      (fun t => cadvisorFetchClosure
        ((fun _ => (.error notFoundErrorFragment : Except String String)) t)) 5 300
      = (1, .ok "", []) :=
  C7_not_found_treated_as_empty (fun _ => .error notFoundErrorFragment) 5 300
    notFoundErrorFragment rfl (by rfl)

/-! ### `metrics/kubelet.go`: the summary document -/

structure CPUStats where
  time : Int
  usageCoreNanoSeconds : Int
  deriving DecidableEq, Repr

structure MemoryStats where
  time : Int
  rssBytes : Int
  deriving DecidableEq, Repr

structure RootFSStats where
  time : Int
  usedBytes : Int
  deriving DecidableEq, Repr

structure NodeFSStats where
  time : Int
  usedBytes : Int
  capacityBytes : Int
  deriving DecidableEq, Repr

structure NetworkStats where
  time : Int
  rxBytes : Int
  rxErrors : Int
  txBytes : Int
  txErrors : Int
  deriving DecidableEq, Repr

/-- `KubeletSummaryContainer` from `metrics/kubelet.go`. -/
structure KubeletSummaryContainer where
  name : String
  startTime : Int
  cpu : CPUStats
  memory : MemoryStats
  rootFS : RootFSStats
  deriving DecidableEq, Repr

structure PodRef where
  name : String
  namespc : String
  deriving DecidableEq, Repr

/-- One entry of `KubeletSummary.Pods`. -/
structure SummaryPod where
  podRef : PodRef
  containers : List KubeletSummaryContainer
  network : NetworkStats
  deriving DecidableEq, Repr

structure SummaryNode where
  cpu : CPUStats
  memory : MemoryStats
  fs : NodeFSStats
  network : NetworkStats
  deriving DecidableEq, Repr

/-- `KubeletSummary` from `metrics/kubelet.go`. -/
structure KubeletSummary where
  node : SummaryNode
  pods : List SummaryPod
  deriving DecidableEq, Repr

/-! ### Claim C8: per-pod container dedup -/

/-- The `podContainers` dedup loop of `GetMetrics` (workaround for restarted
containers appearing twice in the summary): first occurrence of a name is
kept, a later entry replaces it only when its `StartTime` is strictly
later. -/
def podContainersDedup (containers : List KubeletSummaryContainer) :
    List (String × KubeletSummaryContainer) :=
  containers.foldl
    (fun podContainers container =>
      match mapLookup podContainers container.name with
      | none => mapInsert podContainers container.name container
      | some foundContainer =>
          if foundContainer.startTime < container.startTime then
            mapInsert podContainers container.name container
          else podContainers)
    []

/-- Invariant of the dedup fold: keys are distinct container names; each
stored container was seen, carries its key as name, and started no earlier
than every seen container of that name; every seen name is stored. -/
def DedupInv (seen : List KubeletSummaryContainer)
    (m : List (String × KubeletSummaryContainer)) : Prop :=
  (m.map Prod.fst).Nodup ∧
  (∀ k v, mapLookup m k = some v → v.name = k ∧ v ∈ seen ∧
    ∀ c ∈ seen, c.name = k → c.startTime ≤ v.startTime) ∧
  (∀ c ∈ seen, ∃ v, mapLookup m c.name = some v)

theorem dedupStep_inv (seen : List KubeletSummaryContainer)
    (m : List (String × KubeletSummaryContainer))
    (container : KubeletSummaryContainer) (h : DedupInv seen m) :
    DedupInv (seen ++ [container])
      (match mapLookup m container.name with
        | none => mapInsert m container.name container
        | some foundContainer =>
            if foundContainer.startTime < container.startTime then
              mapInsert m container.name container
            else m) := by
  obtain ⟨hnd, hsound, hcomp⟩ := h
  have hlookupNone : mapLookup m container.name = none →
      ∀ c ∈ seen, c.name ≠ container.name := by
    intro hnone c hc hname
    obtain ⟨v, hv⟩ := hcomp c hc
    rw [hname] at hv
    rw [hnone] at hv
    exact Option.noConfusion hv
  cases hm : mapLookup m container.name with
  | none =>
      dsimp only
      refine ⟨mapInsert_keys_nodup _ _ _ hnd, ?_, ?_⟩
      · intro k v hv
        by_cases hk : container.name = k
        · subst hk
          rw [mapLookup_insert_self] at hv
          cases hv
          refine ⟨rfl, by simp, ?_⟩
          intro c hc hname
          rcases List.mem_append.mp hc with hc | hc
          · exact absurd hname (hlookupNone hm c hc)
          · simp at hc
            subst hc
            exact le_refl _
        · rw [mapLookup_insert_ne _ _ _ _ hk] at hv
          obtain ⟨hn, hmem, hmax⟩ := hsound k v hv
          refine ⟨hn, List.mem_append_left _ hmem, ?_⟩
          intro c hc hname
          rcases List.mem_append.mp hc with hc | hc
          · exact hmax c hc hname
          · simp at hc
            subst hc
            exact absurd hname.symm (fun hh => hk hh.symm)
      · intro c hc
        rcases List.mem_append.mp hc with hc | hc
        · obtain ⟨v, hv⟩ := hcomp c hc
          by_cases hk : container.name = c.name
          · rw [← hk]
            exact ⟨container, mapLookup_insert_self _ _ _⟩
          · rw [mapLookup_insert_ne _ _ _ _ hk]
            exact ⟨v, hv⟩
        · simp at hc
          subst hc
          exact ⟨c, mapLookup_insert_self _ _ _⟩
  | some foundContainer =>
      dsimp only
      by_cases hlt : foundContainer.startTime < container.startTime
      · rw [if_pos hlt]
        obtain ⟨hfname, hfmem, hfmax⟩ := hsound container.name foundContainer hm
        refine ⟨mapInsert_keys_nodup _ _ _ hnd, ?_, ?_⟩
        · intro k v hv
          by_cases hk : container.name = k
          · subst hk
            rw [mapLookup_insert_self] at hv
            cases hv
            refine ⟨rfl, by simp, ?_⟩
            intro c hc hname
            rcases List.mem_append.mp hc with hc | hc
            · exact le_of_lt (lt_of_le_of_lt (hfmax c hc hname) hlt)
            · simp at hc
              subst hc
              exact le_refl _
          · rw [mapLookup_insert_ne _ _ _ _ hk] at hv
            obtain ⟨hn, hmem, hmax⟩ := hsound k v hv
            refine ⟨hn, List.mem_append_left _ hmem, ?_⟩
            intro c hc hname
            rcases List.mem_append.mp hc with hc | hc
            · exact hmax c hc hname
            · simp at hc
              subst hc
              exact absurd hname.symm (fun hh => hk hh.symm)
        · intro c hc
          rcases List.mem_append.mp hc with hc | hc
          · obtain ⟨v, hv⟩ := hcomp c hc
            by_cases hk : container.name = c.name
            · rw [← hk]
              exact ⟨container, mapLookup_insert_self _ _ _⟩
            · rw [mapLookup_insert_ne _ _ _ _ hk]
              exact ⟨v, hv⟩
          · simp at hc
            subst hc
            exact ⟨c, mapLookup_insert_self _ _ _⟩
      · rw [if_neg hlt]
        obtain ⟨hfname, hfmem, hfmax⟩ := hsound container.name foundContainer hm
        refine ⟨hnd, ?_, ?_⟩
        · intro k v hv
          obtain ⟨hn, hmem, hmax⟩ := hsound k v hv
          refine ⟨hn, List.mem_append_left _ hmem, ?_⟩
          intro c hc hname
          rcases List.mem_append.mp hc with hc | hc
          · exact hmax c hc hname
          · simp at hc
            subst hc
            have hvf : v = foundContainer := by
              rw [hname] at hm
              rw [hm] at hv
              injection hv with h
              exact h.symm
            subst hvf
            exact not_lt.mp hlt
        · intro c hc
          rcases List.mem_append.mp hc with hc | hc
          · exact hcomp c hc
          · simp at hc
            subst hc
            exact ⟨foundContainer, hm⟩

theorem dedupFold_inv (containers : List KubeletSummaryContainer) :
    ∀ (seen : List KubeletSummaryContainer)
      (m : List (String × KubeletSummaryContainer)), DedupInv seen m →
      DedupInv (seen ++ containers)
        (containers.foldl
          (fun podContainers container =>
            match mapLookup podContainers container.name with
            | none => mapInsert podContainers container.name container
            | some foundContainer =>
                if foundContainer.startTime < container.startTime then
                  mapInsert podContainers container.name container
                else podContainers)
          m) := by
  induction containers with
  | nil =>
      intro seen m h
      simpa using h
  | cons container rest ih =>
      intro seen m h
      have hstep := dedupStep_inv seen m container h
      have := ih (seen ++ [container]) _ hstep
      simpa using this

/-- C8: within one pod, containers sharing a name are deduplicated: the map
the emission loop ranges over has pairwise-distinct names, and for every name
occurring among the pod's reported containers it holds exactly one container,
which is one of the reported ones with that name and whose `StartTime` is
maximal among them. -/
theorem C8_container_dedup_latest_start
    (containers : List KubeletSummaryContainer) (n : String) :
    ((podContainersDedup containers).map Prod.fst).Nodup ∧
    ((∃ c ∈ containers, c.name = n) →
      ∃ v, mapLookup (podContainersDedup containers) n = some v ∧
        v ∈ containers ∧ v.name = n ∧
        ∀ c ∈ containers, c.name = n → c.startTime ≤ v.startTime) := by
  have hinv0 : DedupInv [] [] := by
    refine ⟨List.nodup_nil, ?_, ?_⟩
    · intro k v hv
      simp [mapLookup] at hv
    · intro c hc
      simp at hc
  have h := dedupFold_inv containers [] [] hinv0
  simp only [List.nil_append] at h
  obtain ⟨hnd, hsound, hcomp⟩ := h
  refine ⟨hnd, ?_⟩
  rintro ⟨c, hc, hname⟩
  obtain ⟨v, hv⟩ := hcomp c hc
  rw [hname] at hv
  obtain ⟨hn, hmem, hmax⟩ := hsound n v hv
  exact ⟨v, hv, hmem, hn, hmax⟩

/-- The spec scenario containers: two `web` containers started at `1000` and
`1005`. -/
def c8ContainerEarly : KubeletSummaryContainer :=
  { name := "web", startTime := 1000,
    cpu := ⟨0, 0⟩, memory := ⟨0, 0⟩, rootFS := ⟨0, 0⟩ }

/-- See `c8ContainerEarly`. -/
def c8ContainerLate : KubeletSummaryContainer :=
  { name := "web", startTime := 1005,
    cpu := ⟨0, 0⟩, memory := ⟨0, 0⟩, rootFS := ⟨0, 0⟩ }

/-- Witness for C8, the spec's scenario: two containers named `web`, started
at `1000` and `1005`; the kept one is the later. -/
theorem C8_container_dedup_latest_start_witness :
    ∃ v, mapLookup (podContainersDedup [c8ContainerEarly, c8ContainerLate]) "web"
        = some v ∧
      v ∈ [c8ContainerEarly, c8ContainerLate] ∧ v.name = "web" ∧
      ∀ c ∈ [c8ContainerEarly, c8ContainerLate],
        c.name = "web" → c.startTime ≤ v.startTime :=
  (C8_container_dedup_latest_start [c8ContainerEarly, c8ContainerLate] "web").2
    ⟨c8ContainerEarly, by simp, rfl⟩

/-! ### `metrics/kubelet.go`: the full `GetMetrics` pipeline

The scanner (`scanner.Scanner`, a collaborator outside the provided sources)
is modelled by its lookup interface; the outcome of the backoff-wrapped
fetch-and-parse of each node's two endpoints is passed in as a function of
the node; the decoded cadvisor exposition table is passed as a function from
metric reference name to its (already parsed) samples. -/

/-- `kuber.Node` as consumed by `GetMetrics` via `scanner.GetNodes()`. -/
structure KuberNode where
  id : Nat
  name : String
  instanceType : String
  instanceSize : String
  capacityCPU : Int
  capacityMemory : Int
  allocatableCPU : Int
  allocatableMemory : Int
  deriving DecidableEq, Repr

/-- `scanner.Container`: the identified container — its ID and the spec
resource requirements used for the request/limit metrics
(`Resources.SpecResourceRequirements`, cpu in millicores, memory in bytes). -/
structure SContainer where
  id : Nat
  requestsCpuMilli : Int
  limitsCpuMilli : Int
  requestsMemory : Int
  limitsMemory : Int
  deriving DecidableEq, Repr

structure AppService where
  id : Nat
  containers : List SContainer
  deriving DecidableEq, Repr

structure App where
  id : Nat
  services : List AppService
  deriving DecidableEq, Repr

/-- The scanner lookup interface used by `GetMetrics`:
`FindService(ns, pod)`, `FindContainer(ns, pod, containerName)` and
`FindContainerByPodUIDContainerName(podUID, containerName)` (of whose five
results only the container ID and `ok` are consumed). -/
structure ScannerModel where
  findService : String → String → Option (Nat × Nat)
  findContainer : String → String → String → Option (Nat × Nat × SContainer)
  findContainerByPodUID : String → String → Option (Nat × Nat × Nat)

/-- One parsed sample of the cadvisor exposition
(`getCAdvisorContainerValue`); `ok = false` models an unparsable sample. -/
structure CadvisorSample where
  ok : Bool
  podUID : String
  containerName : String
  value : Int
  deriving DecidableEq, Repr

/-- `containerMetricStore` from `metrics/kubelet.go` (its `Value` is a
`float64` in Go; the claims under check do not depend on fractional
values, so it is carried as `Int`). -/
structure ContainerMetricStore where
  applicationID : Nat
  serviceID : Nat
  containerID : Nat
  namespc : String
  podName : String
  containerName : String
  timestamp : Int
  value : Int
  deriving DecidableEq, Repr

/-- `defaultMetricStore` from `metrics/kubelet.go`. -/
def defaultMetricStore (applicationID serviceID : Nat)
    (identifiedContainer : SContainer) (namespc podName : String)
    (container : KubeletSummaryContainer) : ContainerMetricStore :=
  { applicationID := applicationID, serviceID := serviceID,
    containerID := identifiedContainer.id, namespc := namespc,
    podName := podName, containerName := container.name,
    timestamp := container.cpu.time, value := 0 }

/-- The per-node-task `throttleMetrics` map:
`containerID → metricName → store`. -/
abbrev TM : Type := List (Nat × List (String × ContainerMetricStore))

/-- The environment of the per-node task. -/
structure ScrapeEnv where
  scanner : ScannerModel
  tickTime : Int
  now : Int
  fetchSummary : KuberNode → Except String KubeletSummary
  fetchCadvisor : KuberNode → Except String (String → List CadvisorSample)

/-- Node-scope absolute measurements taken from the summary node block. -/
def nodeSummaryAbsoluteMeasurements (summary : KubeletSummary) :
    List (String × Int × Int) :=
  [("cpu/usage", summary.node.cpu.time, summary.node.cpu.usageCoreNanoSeconds),
   ("memory/rss", summary.node.memory.time, summary.node.memory.rssBytes),
   ("filesystem/usage", summary.node.fs.time, summary.node.fs.usedBytes),
   ("filesystem/node_capacity", summary.node.fs.time, summary.node.fs.capacityBytes),
   ("filesystem/node_allocatable", summary.node.fs.time, summary.node.fs.capacityBytes),
   ("network/tx", summary.node.network.time, summary.node.network.txBytes),
   ("network/rx", summary.node.network.time, summary.node.network.rxBytes),
   ("network/tx_errors", summary.node.network.time, summary.node.network.txErrors),
   ("network/rx_errors", summary.node.network.time, summary.node.network.rxErrors)]

/-- Node-scope rate measurements `(name, time, value, multiplier)`. -/
def nodeSummaryRateMeasurements (summary : KubeletSummary) :
    List (String × Int × Int × Int) :=
  [("cpu/usage_rate", summary.node.cpu.time, summary.node.cpu.usageCoreNanoSeconds, 1000),
   ("network/tx_rate", summary.node.network.time, summary.node.network.txBytes, 1000000000),
   ("network/rx_rate", summary.node.network.time, summary.node.network.rxBytes, 1000000000),
   ("network/tx_errors_rate", summary.node.network.time, summary.node.network.txErrors, 1000000000),
   ("network/rx_errors_rate", summary.node.network.time, summary.node.network.rxErrors, 1000000000)]

def nodeSummaryAbsolutes (env : ScrapeEnv) (node : KuberNode)
    (summary : KubeletSummary) (st : St) : St :=
  (nodeSummaryAbsoluteMeasurements summary).foldl
    (fun st m =>
      addMetricValue env.tickTime TypeNode m.1 node.id 0 0 0 "" m.2.1 m.2.2 st)
    st

def nodeSummaryRates (env : ScrapeEnv) (node : KuberNode)
    (summary : KubeletSummary) (st : St) : St :=
  (nodeSummaryRateMeasurements summary).foldl
    (fun st m =>
      addMetricValueRate env.tickTime TypeNode "" (toString node.id) m.1
        node.id 0 0 0 "" m.2.1 m.2.2.1 m.2.2.2 st)
    st

/-- Pod-scope network absolutes `(name, time, value)` as in the source: the
`network/rx` entry takes `pod.Network.TxBytes` (the `RxBytes` field is not
used). -/
def podNetworkAbsoluteMeasurements (pod : SummaryPod) : List (String × Int × Int) :=
  [("network/tx", pod.network.time, pod.network.txBytes),
   ("network/rx", pod.network.time, pod.network.txBytes),
   ("network/tx_errors", pod.network.time, pod.network.txErrors),
   ("network/rx_errors", pod.network.time, pod.network.rxErrors)]

/-- Pod-scope network rates, same value sources (multiplier fixed 1e9). -/
def podNetworkRateMeasurements (pod : SummaryPod) : List (String × Int × Int) :=
  [("network/tx_rate", pod.network.time, pod.network.txBytes),
   ("network/rx_rate", pod.network.time, pod.network.txBytes),
   ("network/tx_errors_rate", pod.network.time, pod.network.txErrors),
   ("network/rx_errors_rate", pod.network.time, pod.network.rxErrors)]

/-- Per-container absolute measurements (usage from the summary, spec
request/limit from the identified container). -/
def containerMeasurements (container : KubeletSummaryContainer)
    (identifiedContainer : SContainer) : List (String × Int × Int) :=
  [("cpu/usage", container.cpu.time, container.cpu.usageCoreNanoSeconds),
   ("memory/rss", container.memory.time, container.memory.rssBytes),
   ("filesystem/usage", container.rootFS.time, container.rootFS.usedBytes),
   ("cpu/request", container.cpu.time, identifiedContainer.requestsCpuMilli),
   ("cpu/limit", container.cpu.time, identifiedContainer.limitsCpuMilli),
   ("memory/request", container.memory.time, identifiedContainer.requestsMemory),
   ("memory/limit", container.memory.time, identifiedContainer.limitsMemory)]

/-- Body of the loop over surviving (deduplicated) containers: resolve
through `FindContainer` (skip on failure), emit the seven absolutes and the
`cpu/usage_rate`, and register the three zero-valued throttle stores. -/
def processPodContainer (env : ScrapeEnv) (node : KuberNode) (pod : SummaryPod)
    (container : KubeletSummaryContainer) (acc : St × TM) : St × TM :=
  match env.scanner.findContainer pod.podRef.namespc pod.podRef.name container.name with
  | none => acc
  | some (applicationID, serviceID, identifiedContainer) =>
      let st := (containerMeasurements container identifiedContainer).foldl
        (fun st m =>
          addMetricValue env.tickTime TypePodContainer m.1 node.id applicationID
            serviceID identifiedContainer.id pod.podRef.name m.2.1 m.2.2 st)
        acc.1
      let st := addMetricValueRate env.tickTime TypePodContainer
        (pod.podRef.namespc ++ ":" ++ pod.podRef.name) container.name
        "cpu/usage_rate" node.id applicationID serviceID identifiedContainer.id
        pod.podRef.name container.cpu.time container.cpu.usageCoreNanoSeconds
        1000 st
      let store := defaultMetricStore applicationID serviceID identifiedContainer
        pod.podRef.namespc pod.podRef.name container
      let tm := mapInsert acc.2 identifiedContainer.id
        (mapInsert (mapInsert (mapInsert []
          "container_cpu_cfs/periods_total" store)
          "container_cpu_cfs_throttled/seconds_total" store)
          "container_cpu_cfs_throttled/periods_total" store)
      (st, tm)

/-- Body of the pod loop: resolve the service (skip on failure), emit the
pod-scope network absolutes and rates, then process the deduplicated
containers. -/
def processPod (env : ScrapeEnv) (node : KuberNode) (pod : SummaryPod)
    (acc : St × TM) : St × TM :=
  match env.scanner.findService pod.podRef.namespc pod.podRef.name with
  | none => acc
  | some (applicationID, serviceID) =>
      let st := (podNetworkAbsoluteMeasurements pod).foldl
        (fun st m =>
          addMetricValue env.tickTime TypePod m.1 node.id applicationID serviceID
            0 pod.podRef.name m.2.1 m.2.2 st)
        acc.1
      let st := (podNetworkRateMeasurements pod).foldl
        (fun st m =>
          addMetricValueRate env.tickTime TypePod pod.podRef.namespc
            pod.podRef.name m.1 node.id applicationID serviceID 0
            pod.podRef.name m.2.1 m.2.2 1000000000 st)
        st
      (podContainersDedup pod.containers).foldl
        (fun acc entry => processPodContainer env node pod entry.2 acc)
        (st, acc.2)

/-- The three exposition counters `(metric name, reference)` extracted from
the cadvisor document. -/
def cadvisorMetricRefs : List (String × String) :=
  [("container_cpu_cfs/periods_total", "container_cpu_cfs_periods_total"),
   ("container_cpu_cfs_throttled/periods_total", "container_cpu_cfs_throttled_periods_total"),
   ("container_cpu_cfs_throttled/seconds_total", "container_cpu_cfs_throttled_seconds_total")]

/-- `storedMetric.Value = value` for the store at `(containerID, metricName)`
(both lookups must hit, else the sample is logged and dropped). -/
def tmSetValue (tm : TM) (containerID : Nat) (metricName : String) (value : Int) : TM :=
  match mapLookup tm containerID with
  | none => tm
  | some storedMetrics =>
      match mapLookup storedMetrics metricName with
      | none => tm
      | some storedMetric =>
          mapInsert tm containerID
            (mapInsert storedMetrics metricName { storedMetric with value := value })

def applyCadvisorSample (scanner : ScannerModel) (metricName : String)
    (tm : TM) (sample : CadvisorSample) : TM :=
  if sample.ok then
    match scanner.findContainerByPodUID sample.podUID sample.containerName with
    | some (_, _, containerID) => tmSetValue tm containerID metricName sample.value
    | none => tm
  else tm

/-- The cadvisor loop: for each of the three counters, overwrite the stored
zero values with the sampled ones where the container resolves. -/
def applyCadvisor (scanner : ScannerModel)
    (cadvisor : String → List CadvisorSample) (tm : TM) : TM :=
  cadvisorMetricRefs.foldl
    (fun tm metric =>
      (cadvisor metric.2).foldl
        (fun tm val => applyCadvisorSample scanner metric.1 tm val) tm)
    tm

/-- Emission of one stored throttle metric: the absolute at the summary's
node CPU timestamp, and its `_rate` variant at `now` (seconds variants scaled
by 1000 first). -/
def emitThrottleStore (env : ScrapeEnv) (node : KuberNode)
    (summary : KubeletSummary) (metricName : String)
    (storedMetric : ContainerMetricStore) (st : St) : St :=
  let st := addMetricValue env.tickTime TypePodContainer metricName node.id
    storedMetric.applicationID storedMetric.serviceID storedMetric.containerID
    storedMetric.podName summary.node.cpu.time storedMetric.value st
  let rateValue :=
    if strContains metricName "seconds" then storedMetric.value * 1000
    else storedMetric.value
  addMetricValueRate env.tickTime TypePodContainer
    (storedMetric.namespc ++ ":" ++ storedMetric.podName)
    storedMetric.containerName (metricName ++ "_rate") node.id
    storedMetric.applicationID storedMetric.serviceID storedMetric.containerID
    storedMetric.podName env.now rateValue 1000000000 st

def emitThrottleMetrics (env : ScrapeEnv) (node : KuberNode)
    (summary : KubeletSummary) (tm : TM) (st : St) : St :=
  tm.foldl
    (fun st entry =>
      entry.2.foldl
        (fun st inner => emitThrottleStore env node summary inner.1 inner.2 st)
        st)
    st

/-- The per-node task of `GetMetrics`: on a summary fetch/parse failure the
task returns the error having emitted nothing; on a cadvisor fetch/parse
failure it returns the error keeping the summary-derived emissions; errors
never roll anything back. -/
def processNode (env : ScrapeEnv) (node : KuberNode) (st : St) : St × Option String :=
  match env.fetchSummary node with
  | .error e => (st, some e)
  | .ok summary =>
      let st := nodeSummaryAbsolutes env node summary st
      let st := nodeSummaryRates env node summary st
      let stTm := summary.pods.foldl (fun acc pod => processPod env node pod acc) (st, ([] : TM))
      match env.fetchCadvisor node with
      | .error e => (stTm.1, some e)
      | .ok cadvisor =>
          let throttleMetrics := applyCadvisor env.scanner cadvisor stTm.2
          (emitThrottleMetrics env node summary throttleMetrics stTm.1, none)

/-- The state after processing a list of nodes in order (the mutex-guarded
shared slice and rate table, linearised). -/
def runNodesSt (env : ScrapeEnv) : List KuberNode → St → St
  | [], st => st
  | node :: rest, st => runNodesSt env rest (processNode env node st).1

/-- The node fan-out including the collected per-node errors (which
`GetMetrics` only logs). -/
def runNodes (env : ScrapeEnv) (nodes : List KuberNode) (st : St) :
    St × List (Option String) :=
  nodes.foldl
    (fun acc node =>
      ((processNode env node acc.1).1, acc.2 ++ [(processNode env node acc.1).2]))
    (st, [])

/-- All inputs of one `GetMetrics` invocation. -/
structure ScrapeInput where
  nodes : List KuberNode
  nodesScanTime : Int
  apps : List App
  appsScanTime : Int
  scanner : ScannerModel
  fetchSummary : KuberNode → Except String KubeletSummary
  fetchCadvisor : KuberNode → Except String (String → List CadvisorSample)
  tickTime : Int
  now : Int
  previous : List (String × KubeletValue)

def scrapeEnv (inp : ScrapeInput) : ScrapeEnv :=
  { scanner := inp.scanner, tickTime := inp.tickTime, now := inp.now,
    fetchSummary := inp.fetchSummary, fetchCadvisor := inp.fetchCadvisor }

/-- `instanceGroup` of a node: `InstanceType`, `"." + InstanceSize` appended
when the size is non-empty. -/
def instanceGroupOf (node : KuberNode) : String :=
  let instanceGroup := if node.instanceType ≠ "" then node.instanceType else ""
  if node.instanceSize ≠ "" then instanceGroup ++ "." ++ node.instanceSize
  else instanceGroup

/-- The `instanceGroups` counting map (insertion order). -/
def instanceGroups (nodes : List KuberNode) : List (String × Int) :=
  nodes.foldl
    (fun groups node =>
      let g := instanceGroupOf node
      match mapLookup groups g with
      | none => mapInsert groups g 1
      | some n => mapInsert groups g (n + 1))
    []

/-- The cluster-total `nodes/count` metric. -/
def clusterNodesCount (inp : ScrapeInput) (st : St) : St :=
  addMetricValue inp.tickTime TypeCluster "nodes/count" 0 0 0 0 ""
    inp.nodesScanTime (inp.nodes.length : Int) st

/-- The per-instance-group `nodes/count` metrics (tagged). -/
def instanceGroupCounts (inp : ScrapeInput) (st : St) : St :=
  (instanceGroups inp.nodes).foldl
    (fun st g =>
      addMetricValueWithTags TypeCluster "nodes/count" 0 0 0 0 ""
        inp.nodesScanTime g.2 [("instance_group", g.1)] st)
    st

/-- Snapshot-derived node capacity/allocatable measurements. -/
def nodeCapacityMeasurements (node : KuberNode) : List (String × Int) :=
  [("cpu/node_capacity", node.capacityCPU),
   ("cpu/node_allocatable", node.allocatableCPU),
   ("memory/node_capacity", node.capacityMemory),
   ("memory/node_allocatable", node.allocatableMemory)]

def nodeCapacityMetrics (inp : ScrapeInput) (st : St) : St :=
  inp.nodes.foldl
    (fun st node =>
      (nodeCapacityMeasurements node).foldl
        (fun st m =>
          addMetricValue inp.tickTime TypeNode m.1 node.id 0 0 0 ""
            inp.nodesScanTime m.2 st)
        st)
    st

/-- Spec request/limit measurements of one snapshot container. -/
def appSpecMeasurements (container : SContainer) : List (String × Int) :=
  [("cpu/request", container.requestsCpuMilli),
   ("cpu/limit", container.limitsCpuMilli),
   ("memory/request", container.requestsMemory),
   ("memory/limit", container.limitsMemory)]

/-- The post-fan-out per-container spec absolutes (the apps loop before
`pr.Do()`): emitted with `uuid.Nil` as the node ID and empty pod name. -/
def appSpecEmit (inp : ScrapeInput) (st : St) : St :=
  inp.apps.foldl
    (fun st app =>
      app.services.foldl
        (fun st service =>
          service.containers.foldl
            (fun st container =>
              (appSpecMeasurements container).foldl
                (fun st m =>
                  addMetricValue inp.tickTime TypePodContainer m.1 0 app.id
                    service.id container.id "" inp.appsScanTime m.2 st)
                st)
            st)
        st)
    st

/-- The metrics `appSpecEmit` appends, as a plain list. -/
def appSpecList (inp : ScrapeInput) : List Metrics :=
  inp.apps.flatMap (fun app =>
    app.services.flatMap (fun service =>
      service.containers.flatMap (fun container =>
        (appSpecMeasurements container).map (fun m =>
          { name := m.1, type := TypePodContainer, node := 0,
            application := app.id, service := service.id,
            container := container.id, podName := "",
            timestamp := if inp.appsScanTime = 0 then inp.tickTime else inp.appsScanTime,
            value := m.2 }))))

/-- The accumulator state right before the node fan-out: garbage-collected
rate table, cluster count, instance-group counts, snapshot node capacities,
and the post-fan-out spec absolutes (all of which the source emits before
`pr.Do()` runs the node tasks). -/
def snapshotSt (inp : ScrapeInput) : St :=
  appSpecEmit inp
    (nodeCapacityMetrics inp
      (instanceGroupCounts inp
        (clusterNodesCount inp ⟨collectGarbage inp.now inp.previous, []⟩)))

/-- The result of `GetMetrics`: the batch, the updated rate table, and the
returned error value (the source always returns `nil`; per-node errors are
only logged). -/
structure GetMetricsOut where
  metrics : List Metrics
  table : List (String × KubeletValue)
  errOut : Option String

/-- `GetMetrics` from `metrics/kubelet.go`. -/
def getMetrics (inp : ScrapeInput) : GetMetricsOut :=
  let final := (runNodes (scrapeEnv inp) inp.nodes (snapshotSt inp)).1
  { metrics := final.metrics, table := final.table, errOut := none }

/-! ### Claim C9 -/

/-- A pod whose received and transmitted byte counters differ. -/
def c9Pod : SummaryPod :=
  { podRef := { name := "web-1", namespc := "default" },
    containers := [],
    network := { time := 5000000000, rxBytes := 7, rxErrors := 1,
                 txBytes := 9, txErrors := 2 } }

def c9Summary : KubeletSummary :=
  { node := { cpu := ⟨5000000000, 100⟩, memory := ⟨5000000000, 200⟩,
              fs := ⟨5000000000, 10, 20⟩,
              network := ⟨5000000000, 1, 2, 3, 4⟩ },
    pods := [c9Pod] }

def c9Scanner : ScannerModel :=
  { findService := fun _ _ => some (1, 2),
    findContainer := fun _ _ _ => none,
    findContainerByPodUID := fun _ _ => none }

/-- One node, one resolvable pod; a previous point is stored under the pod's
`network/rx_rate` key so the rate is actually emitted this cycle. -/
def c9Input : ScrapeInput :=
  { nodes := [{ id := 3, name := "n1", instanceType := "m4", instanceSize := "large",
                capacityCPU := 4000, capacityMemory := 16,
                allocatableCPU := 3900, allocatableMemory := 15 }],
    nodesScanTime := 1000, apps := [], appsScanTime := 1000,
    scanner := c9Scanner,
    fetchSummary := fun _ => .ok c9Summary,
    fetchCadvisor := fun _ => .ok (fun _ => []),
    tickTime := 1111, now := 2222,
    previous := [("pod-network/rx_rate:default:web-1", ⟨1000000000, 1⟩)] }

/-- C9: the claim (and the spec's stated intent) is that the pod-scope
`network/rx` absolute and `network/rx_rate` take their values from the pod's
`RxBytes` counter.  The source feeds both from `TxBytes` (apparent
copy-paste from the `tx` lines).  At the failing input (`RxBytes = 7`,
`TxBytes = 9`, previous rate point value 1 four seconds earlier): the
emitted `network/rx` value is 9 (not 7), and the emitted `network/rx_rate`
is `1e9 * (9-1) / 4e9 = 2` (from `TxBytes`; from `RxBytes` it would have
been `1e9 * (7-1) / 4e9 = 1`). -/
theorem C9_pod_rx_metrics_use_txbytes :
    c9Pod.network.rxBytes = 7 ∧ c9Pod.network.txBytes = 9 ∧
    (∃ m ∈ (getMetrics c9Input).metrics,
      m.type = TypePod ∧ m.name = "network/rx" ∧ m.value = 9) ∧
    (∀ m ∈ (getMetrics c9Input).metrics,
      m.type = TypePod → m.name = "network/rx" → m.value ≠ 7) ∧
    (∃ m ∈ (getMetrics c9Input).metrics,
      m.type = TypePod ∧ m.name = "network/rx_rate" ∧ m.value = 2) ∧
    (∀ m ∈ (getMetrics c9Input).metrics,
      m.type = TypePod → m.name = "network/rx_rate" → m.value ≠ 1) := by
  decide

/-! ### Claim C2: identifier scope of every emitted metric -/

/-- The per-type identifier pattern common to all emissions; for
`PodContainer` the node constraint is stated separately (it differs between
the per-node fan-out and the post-fan-out spec absolutes). -/
def uuidScope (m : Metrics) : Prop :=
  (m.type = TypeCluster →
    m.node = 0 ∧ m.application = 0 ∧ m.service = 0 ∧ m.container = 0) ∧
  (m.type = TypeNode →
    m.node ≠ 0 ∧ m.application = 0 ∧ m.service = 0 ∧ m.container = 0) ∧
  (m.type = TypePod →
    m.node ≠ 0 ∧ m.application ≠ 0 ∧ m.service ≠ 0 ∧ m.container = 0) ∧
  (m.type = TypePodContainer →
    m.application ≠ 0 ∧ m.service ≠ 0 ∧ m.container ≠ 0)

theorem uuidScope_of_cluster (m : Metrics) (hty : m.type = TypeCluster)
    (hn : m.node = 0) (ha : m.application = 0) (hs : m.service = 0)
    (hc : m.container = 0) : uuidScope m := by
  refine ⟨fun _ => ⟨hn, ha, hs, hc⟩, fun h => ?_, fun h => ?_, fun h => ?_⟩ <;>
    rw [hty] at h <;> exact absurd h (by decide)

theorem uuidScope_of_node (m : Metrics) (hty : m.type = TypeNode)
    (hn : m.node ≠ 0) (ha : m.application = 0) (hs : m.service = 0)
    (hc : m.container = 0) : uuidScope m := by
  refine ⟨fun h => ?_, fun _ => ⟨hn, ha, hs, hc⟩, fun h => ?_, fun h => ?_⟩ <;>
    rw [hty] at h <;> exact absurd h (by decide)

theorem uuidScope_of_pod (m : Metrics) (hty : m.type = TypePod)
    (hn : m.node ≠ 0) (ha : m.application ≠ 0) (hs : m.service ≠ 0)
    (hc : m.container = 0) : uuidScope m := by
  refine ⟨fun h => ?_, fun h => ?_, fun _ => ⟨hn, ha, hs, hc⟩, fun h => ?_⟩ <;>
    rw [hty] at h <;> exact absurd h (by decide)

theorem uuidScope_of_podContainer (m : Metrics) (hty : m.type = TypePodContainer)
    (ha : m.application ≠ 0) (hs : m.service ≠ 0) (hc : m.container ≠ 0) :
    uuidScope m := by
  refine ⟨fun h => ?_, fun h => ?_, fun h => ?_, fun _ => ⟨ha, hs, hc⟩⟩ <;>
    rw [hty] at h <;> exact absurd h (by decide)

/-- The pattern satisfied by everything a node task emits: the scope pattern,
with a non-nil node UUID on `PodContainer` records. -/
def nodeTaskScope (m : Metrics) : Prop :=
  uuidScope m ∧ (m.type = TypePodContainer → m.node ≠ 0)

/-- Hypotheses on the scanner: resolved identifiers are non-nil. -/
def ScannerIdsOk (scanner : ScannerModel) : Prop :=
  (∀ ns pod a s, scanner.findService ns pod = some (a, s) → a ≠ 0 ∧ s ≠ 0) ∧
  (∀ ns pod cn a s ic, scanner.findContainer ns pod cn = some (a, s, ic) →
    a ≠ 0 ∧ s ≠ 0 ∧ ic.id ≠ 0)

/-- Hypotheses on the snapshot applications: all identifiers non-nil. -/
def AppsIdsOk (apps : List App) : Prop :=
  ∀ app ∈ apps, app.id ≠ 0 ∧
    ∀ service ∈ app.services, service.id ≠ 0 ∧
      ∀ container ∈ service.containers, container.id ≠ 0

/-- All stores in a throttle map carry non-nil identifiers. -/
def TMOk (tm : TM) : Prop :=
  ∀ entry ∈ tm, ∀ inner ∈ entry.2,
    inner.2.applicationID ≠ 0 ∧ inner.2.serviceID ≠ 0 ∧ inner.2.containerID ≠ 0

theorem mapInsert_mem {κ α : Type} [DecidableEq κ]
    (m : List (κ × α)) (k : κ) (v : α) :
    ∀ p ∈ mapInsert m k v, p ∈ m ∨ p = (k, v) := by
  induction m with
  | nil =>
      intro p hp
      simp [mapInsert] at hp
      exact Or.inr hp
  | cons q rest ih =>
      obtain ⟨k0, v0⟩ := q
      intro p hp
      by_cases h0 : k0 = k
      · simp [mapInsert, h0] at hp
        rcases hp with hp | hp
        · exact Or.inr (by simp [hp])
        · exact Or.inl (List.mem_cons_of_mem _ hp)
      · simp [mapInsert, h0] at hp
        rcases hp with hp | hp
        · exact Or.inl (by simp [hp])
        · rcases ih p hp with h | h
          · exact Or.inl (List.mem_cons_of_mem _ h)
          · exact Or.inr h

/-- `f` only appends metrics satisfying `P` to the accumulator seen through
`proj`. -/
def appendsOnly {σ : Type} (proj : σ → List Metrics) (P : Metrics → Prop)
    (f : σ → σ) : Prop :=
  ∀ s, ∃ extra, proj (f s) = proj s ++ extra ∧ ∀ m ∈ extra, P m

theorem appendsOnly_of_eq {σ : Type} (proj : σ → List Metrics) (P : Metrics → Prop)
    (f : σ → σ) (h : ∀ s, proj (f s) = proj s) : appendsOnly proj P f := by
  intro s
  exact ⟨[], by simp [h s], by simp⟩

theorem appendsOnly_comp {σ : Type} (proj : σ → List Metrics) (P : Metrics → Prop)
    (f g : σ → σ) (hf : appendsOnly proj P f) (hg : appendsOnly proj P g) :
    appendsOnly proj P (fun s => g (f s)) := by
  intro s
  obtain ⟨e1, h1, hp1⟩ := hf s
  obtain ⟨e2, h2, hp2⟩ := hg (f s)
  refine ⟨e1 ++ e2, ?_, ?_⟩
  · rw [h2, h1, List.append_assoc]
  · intro m hm
    rcases List.mem_append.mp hm with h | h
    · exact hp1 m h
    · exact hp2 m h

theorem appendsOnly_foldl {σ α : Type} (proj : σ → List Metrics)
    (P : Metrics → Prop) (step : σ → α → σ) (l : List α)
    (h : ∀ a ∈ l, appendsOnly proj P (fun s => step s a)) :
    appendsOnly proj P (fun s => l.foldl step s) := by
  induction l with
  | nil => exact appendsOnly_of_eq _ _ _ (fun s => rfl)
  | cons a rest ih =>
      have hstep := h a (List.mem_cons_self _ _)
      have hrest := ih (fun b hb => h b (List.mem_cons_of_mem _ hb))
      intro s
      obtain ⟨e1, h1, hp1⟩ := hstep s
      obtain ⟨e2, h2, hp2⟩ := hrest (step s a)
      refine ⟨e1 ++ e2, ?_, ?_⟩
      · dsimp only at h1 h2 ⊢
        rw [List.foldl_cons, h2, h1, List.append_assoc]
      · intro m hm
        rcases List.mem_append.mp hm with hmm | hmm
        · exact hp1 m hmm
        · exact hp2 m hmm

theorem addMetricValue_appendsOnly (P : Metrics → Prop) (tickTime : Int)
    (ty nm : String) (n a s c : Nat) (pod : String) (ts v : Int)
    (h : P { name := nm, type := ty, node := n, application := a,
             service := s, container := c, podName := pod,
             timestamp := if ts = 0 then tickTime else ts, value := v }) :
    appendsOnly St.metrics P (addMetricValue tickTime ty nm n a s c pod ts v) := by
  intro st
  refine ⟨[{ name := nm, type := ty, node := n, application := a, service := s,
             container := c, podName := pod,
             timestamp := if ts = 0 then tickTime else ts, value := v }], rfl, ?_⟩
  intro m hm
  simp at hm
  subst hm
  exact h

theorem addMetricValueWithTags_appendsOnly (P : Metrics → Prop)
    (ty nm : String) (n a s c : Nat) (pod : String) (ts v : Int)
    (tags : List (String × String))
    (h : P { name := nm, type := ty, node := n, application := a, service := s,
             container := c, podName := pod, timestamp := ts, value := v,
             additionalTags := tags }) :
    appendsOnly St.metrics P (addMetricValueWithTags ty nm n a s c pod ts v tags) := by
  intro st
  refine ⟨[{ name := nm, type := ty, node := n, application := a, service := s,
             container := c, podName := pod, timestamp := ts, value := v,
             additionalTags := tags }], rfl, ?_⟩
  intro m hm
  simp at hm
  subst hm
  exact h

theorem addMetricValueRate_appendsOnly (P : Metrics → Prop) (tickTime : Int)
    (ty pk ek nm : String) (n a s c : Nat) (pod : String) (ts v mult : Int)
    (h : ∀ v', P { name := nm, type := ty, node := n, application := a,
                   service := s, container := c, podName := pod,
                   timestamp := if (if ts = 0 then tickTime else ts) = 0 then tickTime
                     else if ts = 0 then tickTime else ts,
                   value := v' }) :
    appendsOnly St.metrics P
      (addMetricValueRate tickTime ty pk ek nm n a s c pod ts v mult) := by
  intro st
  unfold addMetricValueRate
  cases hr : calcRate (mapLookup st.table (getKey ty pk ek nm))
      (if ts = 0 then tickTime else ts) v mult with
  | error e =>
      refine ⟨[], ?_, by simp⟩
      simp only [hr]
      simp
  | ok rate =>
      refine ⟨[{ name := nm, type := ty, node := n, application := a, service := s,
                 container := c, podName := pod,
                 timestamp := if (if ts = 0 then tickTime else ts) = 0 then tickTime
                   else if ts = 0 then tickTime else ts,
                 value := rate }], ?_, ?_⟩
      · simp only [hr]
        simp [addMetricValue]
      · intro m hm
        simp at hm
        subst hm
        exact h _

theorem foldl_preserve {σ α : Type} (Inv : σ → Prop) (step : σ → α → σ)
    (l : List α) (h : ∀ a ∈ l, ∀ s, Inv s → Inv (step s a)) :
    ∀ s, Inv s → Inv (l.foldl step s) := by
  induction l with
  | nil => intro s hs; exact hs
  | cons a rest ih =>
      intro s hs
      exact ih (fun b hb => h b (List.mem_cons_of_mem _ hb)) _
        (h a (List.mem_cons_self _ _) s hs)

theorem tmSetValue_TMOk (tm : TM) (cid : Nat) (nm : String) (v : Int)
    (h : TMOk tm) : TMOk (tmSetValue tm cid nm v) := by
  unfold tmSetValue
  cases h1 : mapLookup tm cid with
  | none => exact h
  | some storedMetrics =>
      dsimp only
      cases h2 : mapLookup storedMetrics nm with
      | none => exact h
      | some storedMetric =>
          dsimp only
          intro entry hmem inner hinner
          rcases mapInsert_mem _ _ _ entry hmem with hm | hm
          · exact h entry hm inner hinner
          · subst hm
            rcases mapInsert_mem _ _ _ inner hinner with hi | hi
            · exact h (cid, storedMetrics) (mapLookup_mem _ _ _ h1) inner hi
            · subst hi
              have := h (cid, storedMetrics) (mapLookup_mem _ _ _ h1)
                (nm, storedMetric) (mapLookup_mem _ _ _ h2)
              simpa using this

theorem applyCadvisorSample_TMOk (scanner : ScannerModel) (nm : String)
    (tm : TM) (sample : CadvisorSample) (h : TMOk tm) :
    TMOk (applyCadvisorSample scanner nm tm sample) := by
  unfold applyCadvisorSample
  by_cases hok : sample.ok
  · rw [if_pos hok]
    cases hf : scanner.findContainerByPodUID sample.podUID sample.containerName with
    | none => exact h
    | some t =>
        obtain ⟨x, y, cid⟩ := t
        exact tmSetValue_TMOk _ _ _ _ h
  · rw [if_neg hok]
    exact h

theorem applyCadvisor_TMOk (scanner : ScannerModel)
    (cadvisor : String → List CadvisorSample) (tm : TM) (h : TMOk tm) :
    TMOk (applyCadvisor scanner cadvisor tm) := by
  unfold applyCadvisor
  refine foldl_preserve TMOk _ _ ?_ tm h
  intro metric _ s hs
  refine foldl_preserve TMOk _ _ ?_ s hs
  intro sample _ s' hs'
  exact applyCadvisorSample_TMOk scanner metric.1 s' sample hs'

/-- A step on the pair state (metric accumulator, throttle map): only appends
`P`-metrics and preserves throttle-map identifier sanity. -/
def pairStepOk (P : Metrics → Prop) (f : St × TM → St × TM) : Prop :=
  ∀ acc : St × TM,
    (∃ extra, (f acc).1.metrics = acc.1.metrics ++ extra ∧ ∀ m ∈ extra, P m) ∧
    (TMOk acc.2 → TMOk (f acc).2)

theorem pairStepOk_foldl {α : Type} (P : Metrics → Prop)
    (step : α → St × TM → St × TM) (l : List α)
    (h : ∀ a ∈ l, pairStepOk P (step a)) :
    pairStepOk P (fun acc => l.foldl (fun acc a => step a acc) acc) := by
  induction l with
  | nil => exact fun acc => ⟨⟨[], by simp, by simp⟩, fun htm => htm⟩
  | cons a rest ih =>
      intro acc
      have hstep := h a (List.mem_cons_self _ _) acc
      have hrest := ih (fun b hb => h b (List.mem_cons_of_mem _ hb)) (step a acc)
      obtain ⟨⟨e1, h1, hp1⟩, ht1⟩ := hstep
      obtain ⟨⟨e2, h2, hp2⟩, ht2⟩ := hrest
      refine ⟨⟨e1 ++ e2, ?_, ?_⟩, ?_⟩
      · dsimp only at h1 h2 ⊢
        rw [List.foldl_cons, h2, h1, List.append_assoc]
      · intro m hm
        rcases List.mem_append.mp hm with hmm | hmm
        · exact hp1 m hmm
        · exact hp2 m hmm
      · intro htm
        dsimp only
        rw [List.foldl_cons]
        exact ht2 (ht1 htm)

theorem pairStepOk_comp (P : Metrics → Prop) (f g : St × TM → St × TM)
    (hf : pairStepOk P f) (hg : pairStepOk P g) :
    pairStepOk P (fun acc => g (f acc)) := by
  intro acc
  obtain ⟨⟨e1, h1, hp1⟩, ht1⟩ := hf acc
  obtain ⟨⟨e2, h2, hp2⟩, ht2⟩ := hg (f acc)
  refine ⟨⟨e1 ++ e2, ?_, ?_⟩, fun htm => ht2 (ht1 htm)⟩
  · rw [h2, h1, List.append_assoc]
  · intro m hm
    rcases List.mem_append.mp hm with hmm | hmm
    · exact hp1 m hmm
    · exact hp2 m hmm

theorem pairStepOk_liftSt (P : Metrics → Prop) (f : St → St)
    (h : appendsOnly St.metrics P f) :
    pairStepOk P (fun acc => (f acc.1, acc.2)) := by
  intro acc
  obtain ⟨e, he, hp⟩ := h acc.1
  exact ⟨⟨e, he, hp⟩, fun htm => htm⟩

theorem pairStepOk_liftTm (P : Metrics → Prop) (g : TM → TM)
    (h : ∀ tm, TMOk tm → TMOk (g tm)) :
    pairStepOk P (fun acc => (acc.1, g acc.2)) := by
  intro acc
  exact ⟨⟨[], by simp, by simp⟩, fun htm => h _ htm⟩

theorem tmInsertTriple_TMOk (tm : TM) (cid : Nat) (store : ContainerMetricStore)
    (ha : store.applicationID ≠ 0) (hs : store.serviceID ≠ 0)
    (hc : store.containerID ≠ 0) (k1 k2 k3 : String) (htm : TMOk tm) :
    TMOk (mapInsert tm cid
      (mapInsert (mapInsert (mapInsert [] k1 store) k2 store) k3 store)) := by
  intro entry hmem inner hinner
  rcases mapInsert_mem _ _ _ entry hmem with hm | hm
  · exact htm entry hm inner hinner
  · subst hm
    have hst : inner.2 = store := by
      rcases mapInsert_mem _ _ _ inner hinner with hi | hi
      · rcases mapInsert_mem _ _ _ inner hi with hi2 | hi2
        · rcases mapInsert_mem _ _ _ inner hi2 with hi3 | hi3
          · have hone : inner = (k1, store) := by simpa [mapInsert] using hi3
            rw [hone]
          · rw [hi3]
        · rw [hi2]
      · rw [hi]
    rw [hst]
    exact ⟨ha, hs, hc⟩

theorem processPodContainer_pairStepOk (env : ScrapeEnv) (node : KuberNode)
    (pod : SummaryPod) (container : KubeletSummaryContainer)
    (hnode : node.id ≠ 0) (hscan : ScannerIdsOk env.scanner) :
    pairStepOk nodeTaskScope (processPodContainer env node pod container) := by
  unfold processPodContainer
  cases hf : env.scanner.findContainer pod.podRef.namespc pod.podRef.name
      container.name with
  | none => exact fun acc => ⟨⟨[], by simp, by simp⟩, fun htm => htm⟩
  | some t =>
      obtain ⟨applicationID, serviceID, identifiedContainer⟩ := t
      obtain ⟨ha, hs, hc⟩ := hscan.2 _ _ _ _ _ _ hf
      have h1 : appendsOnly St.metrics nodeTaskScope
          (fun st => (containerMeasurements container identifiedContainer).foldl
            (fun st m => addMetricValue env.tickTime TypePodContainer m.1 node.id
              applicationID serviceID identifiedContainer.id pod.podRef.name
              m.2.1 m.2.2 st) st) :=
        appendsOnly_foldl _ _ _ _ (fun m _ =>
          addMetricValue_appendsOnly _ _ _ _ _ _ _ _ _ _ _
            ⟨uuidScope_of_podContainer _ rfl ha hs hc, fun _ => hnode⟩)
      have h2 : appendsOnly St.metrics nodeTaskScope
          (addMetricValueRate env.tickTime TypePodContainer
            (pod.podRef.namespc ++ ":" ++ pod.podRef.name) container.name
            "cpu/usage_rate" node.id applicationID serviceID identifiedContainer.id
            pod.podRef.name container.cpu.time container.cpu.usageCoreNanoSeconds
            1000) :=
        addMetricValueRate_appendsOnly _ _ _ _ _ _ _ _ _ _ _ _ _ _
          (fun _ => ⟨uuidScope_of_podContainer _ rfl ha hs hc, fun _ => hnode⟩)
      have hTm : ∀ tm, TMOk tm → TMOk (mapInsert tm identifiedContainer.id
          (mapInsert (mapInsert (mapInsert []
            "container_cpu_cfs/periods_total"
            (defaultMetricStore applicationID serviceID identifiedContainer
              pod.podRef.namespc pod.podRef.name container))
            "container_cpu_cfs_throttled/seconds_total"
            (defaultMetricStore applicationID serviceID identifiedContainer
              pod.podRef.namespc pod.podRef.name container))
            "container_cpu_cfs_throttled/periods_total"
            (defaultMetricStore applicationID serviceID identifiedContainer
              pod.podRef.namespc pod.podRef.name container))) :=
        fun tm htm => tmInsertTriple_TMOk tm identifiedContainer.id _ ha hs hc
          _ _ _ htm
      exact pairStepOk_comp _ _ _
        (pairStepOk_comp _ _ _ (pairStepOk_liftSt _ _ h1) (pairStepOk_liftSt _ _ h2))
        (pairStepOk_liftTm _ _ hTm)

theorem processPod_pairStepOk (env : ScrapeEnv) (node : KuberNode)
    (pod : SummaryPod) (hnode : node.id ≠ 0) (hscan : ScannerIdsOk env.scanner) :
    pairStepOk nodeTaskScope (processPod env node pod) := by
  unfold processPod
  cases hf : env.scanner.findService pod.podRef.namespc pod.podRef.name with
  | none => exact fun acc => ⟨⟨[], by simp, by simp⟩, fun htm => htm⟩
  | some t =>
      obtain ⟨applicationID, serviceID⟩ := t
      obtain ⟨ha, hs⟩ := hscan.1 _ _ _ _ hf
      have h1 : appendsOnly St.metrics nodeTaskScope
          (fun st => (podNetworkAbsoluteMeasurements pod).foldl
            (fun st m => addMetricValue env.tickTime TypePod m.1 node.id
              applicationID serviceID 0 pod.podRef.name m.2.1 m.2.2 st) st) :=
        appendsOnly_foldl _ _ _ _ (fun m _ =>
          addMetricValue_appendsOnly _ _ _ _ _ _ _ _ _ _ _
            ⟨uuidScope_of_pod _ rfl hnode ha hs rfl, fun _ => hnode⟩)
      have h2 : appendsOnly St.metrics nodeTaskScope
          (fun st => (podNetworkRateMeasurements pod).foldl
            (fun st m => addMetricValueRate env.tickTime TypePod
              pod.podRef.namespc pod.podRef.name m.1 node.id applicationID
              serviceID 0 pod.podRef.name m.2.1 m.2.2 1000000000 st) st) :=
        appendsOnly_foldl _ _ _ _ (fun m _ =>
          addMetricValueRate_appendsOnly _ _ _ _ _ _ _ _ _ _ _ _ _ _
            (fun _ => ⟨uuidScope_of_pod _ rfl hnode ha hs rfl, fun _ => hnode⟩))
      have h3 : pairStepOk nodeTaskScope
          (fun acc => (podContainersDedup pod.containers).foldl
            (fun acc entry => processPodContainer env node pod entry.2 acc) acc) :=
        pairStepOk_foldl _ _ _ (fun entry _ =>
          processPodContainer_pairStepOk env node pod entry.2 hnode hscan)
      exact pairStepOk_comp _ _ _
        (pairStepOk_comp _ _ _ (pairStepOk_liftSt _ _ h1) (pairStepOk_liftSt _ _ h2))
        h3

theorem emitThrottleStore_appendsOnly (env : ScrapeEnv) (node : KuberNode)
    (summary : KubeletSummary) (nm : String) (store : ContainerMetricStore)
    (hnode : node.id ≠ 0) (ha : store.applicationID ≠ 0)
    (hs : store.serviceID ≠ 0) (hc : store.containerID ≠ 0) :
    appendsOnly St.metrics nodeTaskScope
      (emitThrottleStore env node summary nm store) := by
  have h1 := addMetricValue_appendsOnly nodeTaskScope env.tickTime
    TypePodContainer nm node.id store.applicationID store.serviceID
    store.containerID store.podName summary.node.cpu.time store.value
    ⟨uuidScope_of_podContainer _ rfl ha hs hc, fun _ => hnode⟩
  have h2 := addMetricValueRate_appendsOnly nodeTaskScope env.tickTime
    TypePodContainer (store.namespc ++ ":" ++ store.podName)
    store.containerName (nm ++ "_rate") node.id store.applicationID
    store.serviceID store.containerID store.podName env.now
    (if strContains nm "seconds" then store.value * 1000 else store.value)
    1000000000
    (fun _ => ⟨uuidScope_of_podContainer _ rfl ha hs hc, fun _ => hnode⟩)
  have hcomp := appendsOnly_comp St.metrics nodeTaskScope _ _ h1 h2
  exact hcomp

theorem emitThrottleMetrics_appendsOnly (env : ScrapeEnv) (node : KuberNode)
    (summary : KubeletSummary) (tm : TM) (hnode : node.id ≠ 0) (htm : TMOk tm) :
    appendsOnly St.metrics nodeTaskScope (emitThrottleMetrics env node summary tm) := by
  unfold emitThrottleMetrics
  refine appendsOnly_foldl _ _ _ _ ?_
  intro entry hentry
  refine appendsOnly_foldl _ _ _ _ ?_
  intro inner hinner
  obtain ⟨ha, hs, hc⟩ := htm entry hentry inner hinner
  exact emitThrottleStore_appendsOnly env node summary inner.1 inner.2 hnode ha hs hc

theorem processNode_metrics (env : ScrapeEnv) (node : KuberNode)
    (hnode : node.id ≠ 0) (hscan : ScannerIdsOk env.scanner) :
    ∀ st, ∃ extra, (processNode env node st).1.metrics = st.metrics ++ extra ∧
      ∀ m ∈ extra, nodeTaskScope m := by
  intro st
  unfold processNode
  cases hsum : env.fetchSummary node with
  | error e => exact ⟨[], by simp, by simp⟩
  | ok summary =>
      dsimp only
      have h1 : appendsOnly St.metrics nodeTaskScope
          (nodeSummaryAbsolutes env node summary) := by
        unfold nodeSummaryAbsolutes
        exact appendsOnly_foldl _ _ _ _ (fun m _ =>
          addMetricValue_appendsOnly _ _ _ _ _ _ _ _ _ _ _
            ⟨uuidScope_of_node _ rfl hnode rfl rfl rfl, fun _ => hnode⟩)
      have h2 : appendsOnly St.metrics nodeTaskScope
          (nodeSummaryRates env node summary) := by
        unfold nodeSummaryRates
        exact appendsOnly_foldl _ _ _ _ (fun m _ =>
          addMetricValueRate_appendsOnly _ _ _ _ _ _ _ _ _ _ _ _ _ _
            (fun _ => ⟨uuidScope_of_node _ rfl hnode rfl rfl rfl, fun _ => hnode⟩))
      have h3 : pairStepOk nodeTaskScope
          (fun acc => summary.pods.foldl (fun acc pod => processPod env node pod acc) acc) :=
        pairStepOk_foldl _ _ _ (fun pod _ =>
          processPod_pairStepOk env node pod hnode hscan)
      have htm0 : TMOk ([] : TM) := fun entry h => absurd h (List.not_mem_nil _)
      obtain ⟨e1, he1, hp1⟩ := h1 st
      obtain ⟨e2, he2, hp2⟩ := h2 (nodeSummaryAbsolutes env node summary st)
      obtain ⟨⟨e3, he3, hp3⟩, ht3⟩ := h3
        (nodeSummaryRates env node summary (nodeSummaryAbsolutes env node summary st), ([] : TM))
      dsimp only at he3 ht3
      cases hcad : env.fetchCadvisor node with
      | error e =>
          dsimp only
          refine ⟨e1 ++ (e2 ++ e3), ?_, ?_⟩
          · rw [he3, he2, he1]
            simp [List.append_assoc]
          · intro m hm
            rcases List.mem_append.mp hm with hmm | hmm
            · exact hp1 m hmm
            rcases List.mem_append.mp hmm with hmm2 | hmm2
            · exact hp2 m hmm2
            · exact hp3 m hmm2
      | ok cadvisor =>
          dsimp only
          have h4 := emitThrottleMetrics_appendsOnly env node summary
            (applyCadvisor env.scanner cadvisor
              (summary.pods.foldl (fun acc pod => processPod env node pod acc)
                (nodeSummaryRates env node summary
                  (nodeSummaryAbsolutes env node summary st), ([] : TM))).2)
            hnode
            (applyCadvisor_TMOk _ _ _ (ht3 htm0))
          obtain ⟨e4, he4, hp4⟩ := h4
            (summary.pods.foldl (fun acc pod => processPod env node pod acc)
              (nodeSummaryRates env node summary
                (nodeSummaryAbsolutes env node summary st), ([] : TM))).1
          refine ⟨e1 ++ (e2 ++ (e3 ++ e4)), ?_, ?_⟩
          · rw [he4, he3, he2, he1]
            simp [List.append_assoc]
          · intro m hm
            rcases List.mem_append.mp hm with hmm | hmm
            · exact hp1 m hmm
            rcases List.mem_append.mp hmm with hmm2 | hmm2
            · exact hp2 m hmm2
            rcases List.mem_append.mp hmm2 with hmm3 | hmm3
            · exact hp3 m hmm3
            · exact hp4 m hmm3

theorem processNode_summary_error (env : ScrapeEnv) (node : KuberNode)
    (st : St) (e : String) (h : env.fetchSummary node = .error e) :
    processNode env node st = (st, some e) := by
  unfold processNode
  rw [h]

theorem runNodesSt_metrics (env : ScrapeEnv) (nodes : List KuberNode)
    (hscan : ScannerIdsOk env.scanner) (hnodes : ∀ n ∈ nodes, n.id ≠ 0) :
    ∀ st, ∃ extra, (runNodesSt env nodes st).metrics = st.metrics ++ extra ∧
      ∀ m ∈ extra, nodeTaskScope m := by
  induction nodes with
  | nil => exact fun st => ⟨[], by simp [runNodesSt], by simp⟩
  | cons node rest ih =>
      intro st
      obtain ⟨e1, he1, hp1⟩ :=
        processNode_metrics env node (hnodes node (List.mem_cons_self _ _)) hscan st
      obtain ⟨e2, he2, hp2⟩ :=
        ih (fun n hn => hnodes n (List.mem_cons_of_mem _ hn)) (processNode env node st).1
      refine ⟨e1 ++ e2, ?_, ?_⟩
      · rw [runNodesSt, he2, he1, List.append_assoc]
      · intro m hm
        rcases List.mem_append.mp hm with hmm | hmm
        · exact hp1 m hmm
        · exact hp2 m hmm

theorem runNodes_fst_aux (env : ScrapeEnv) (nodes : List KuberNode) :
    ∀ (st : St) (errs : List (Option String)),
      (nodes.foldl
        (fun acc node =>
          ((processNode env node acc.1).1, acc.2 ++ [(processNode env node acc.1).2]))
        (st, errs)).1 = runNodesSt env nodes st := by
  induction nodes with
  | nil => intro st errs; rfl
  | cons node rest ih =>
      intro st errs
      rw [List.foldl_cons, runNodesSt]
      exact ih _ _

theorem runNodes_fst (env : ScrapeEnv) (nodes : List KuberNode) (st : St) :
    (runNodes env nodes st).1 = runNodesSt env nodes st :=
  runNodes_fst_aux env nodes st []

theorem runNodesSt_append (env : ScrapeEnv) (l1 l2 : List KuberNode) :
    ∀ st, runNodesSt env (l1 ++ l2) st = runNodesSt env l2 (runNodesSt env l1 st) := by
  induction l1 with
  | nil => intro st; rfl
  | cons node rest ih =>
      intro st
      rw [List.cons_append, runNodesSt, runNodesSt]
      exact ih _

/-- The scope pattern of the full output: the per-type pattern, with the node
UUID of `PodContainer` records non-nil except on the post-fan-out snapshot
spec absolutes. -/
def finalScope (inp : ScrapeInput) (m : Metrics) : Prop :=
  uuidScope m ∧ (m.type = TypePodContainer → m.node ≠ 0 ∨ m ∈ appSpecList inp)

theorem appSpecList_shape (inp : ScrapeInput) :
    ∀ m ∈ appSpecList inp,
      m.type = TypePodContainer ∧ m.node = 0 ∧ m.podName = "" := by
  intro m hm
  simp only [appSpecList, List.mem_flatMap, List.mem_map] at hm
  obtain ⟨app, _, service, _, container, _, meas, _, hm⟩ := hm
  subst hm
  exact ⟨rfl, rfl, rfl⟩

theorem appSpecList_ids (inp : ScrapeInput) (happs : AppsIdsOk inp.apps) :
    ∀ m ∈ appSpecList inp,
      m.application ≠ 0 ∧ m.service ≠ 0 ∧ m.container ≠ 0 := by
  intro m hm
  simp only [appSpecList, List.mem_flatMap, List.mem_map] at hm
  obtain ⟨app, happm, service, hsvcm, container, hcm, meas, hmm, hm⟩ := hm
  obtain ⟨ha, hrest⟩ := happs app happm
  obtain ⟨hs, hrest2⟩ := hrest service hsvcm
  have hc := hrest2 container hcm
  subst hm
  exact ⟨ha, hs, hc⟩

theorem appSpecEmit_appendsOnly (inp : ScrapeInput) :
    appendsOnly St.metrics (fun m => m ∈ appSpecList inp) (appSpecEmit inp) := by
  unfold appSpecEmit
  refine appendsOnly_foldl _ _ _ _ ?_
  intro app happ
  refine appendsOnly_foldl _ _ _ _ ?_
  intro service hsvc
  refine appendsOnly_foldl _ _ _ _ ?_
  intro container hcont
  refine appendsOnly_foldl _ _ _ _ ?_
  intro meas hmeas
  refine addMetricValue_appendsOnly _ _ _ _ _ _ _ _ _ _ _ ?_
  simp only [appSpecList, List.mem_flatMap, List.mem_map]
  exact ⟨app, happ, service, hsvc, container, hcont, meas, hmeas, rfl⟩

theorem snapshotSt_scope (inp : ScrapeInput)
    (hnodes : ∀ n ∈ inp.nodes, n.id ≠ 0) (happs : AppsIdsOk inp.apps) :
    ∀ m ∈ (snapshotSt inp).metrics, finalScope inp m := by
  have hc : appendsOnly St.metrics (finalScope inp) (clusterNodesCount inp) := by
    unfold clusterNodesCount
    exact addMetricValue_appendsOnly _ _ _ _ _ _ _ _ _ _ _
      ⟨uuidScope_of_cluster _ rfl rfl rfl rfl rfl,
       fun hh => absurd (show TypeCluster = TypePodContainer from hh) (by decide)⟩
  have hg : appendsOnly St.metrics (finalScope inp) (instanceGroupCounts inp) := by
    unfold instanceGroupCounts
    refine appendsOnly_foldl _ _ _ _ ?_
    intro g _
    exact addMetricValueWithTags_appendsOnly _ _ _ _ _ _ _ _ _ _ _
      ⟨uuidScope_of_cluster _ rfl rfl rfl rfl rfl,
       fun hh => absurd (show TypeCluster = TypePodContainer from hh) (by decide)⟩
  have hcap : appendsOnly St.metrics (finalScope inp) (nodeCapacityMetrics inp) := by
    unfold nodeCapacityMetrics
    refine appendsOnly_foldl _ _ _ _ ?_
    intro node hnodemem
    refine appendsOnly_foldl _ _ _ _ ?_
    intro meas _
    exact addMetricValue_appendsOnly _ _ _ _ _ _ _ _ _ _ _
      ⟨uuidScope_of_node _ rfl (hnodes node hnodemem) rfl rfl rfl,
       fun hh => absurd (show TypeNode = TypePodContainer from hh) (by decide)⟩
  have happscope : appendsOnly St.metrics (finalScope inp) (appSpecEmit inp) := by
    intro st
    obtain ⟨e, he, hp⟩ := appSpecEmit_appendsOnly inp st
    refine ⟨e, he, ?_⟩
    intro m hm
    have hmem := hp m hm
    obtain ⟨hty, hnode0, _⟩ := appSpecList_shape inp m hmem
    obtain ⟨ha, hs, hcid⟩ := appSpecList_ids inp happs m hmem
    exact ⟨uuidScope_of_podContainer m hty ha hs hcid, fun _ => Or.inr hmem⟩
  have hcomp := appendsOnly_comp St.metrics (finalScope inp) _ _
    (appendsOnly_comp St.metrics (finalScope inp) _ _
      (appendsOnly_comp St.metrics (finalScope inp) _ _ hc hg) hcap) happscope
  intro m hm
  obtain ⟨e, he, hp⟩ := hcomp ⟨collectGarbage inp.now inp.previous, []⟩
  have he' : (snapshotSt inp).metrics = [] ++ e := he
  rw [he'] at hm
  exact hp m (by simpa using hm)

/-- C2 amended: under non-nil identifiers from the scanner and snapshot,
every metric follows the per-type pattern — Cluster: all four nil; Node: only
the node UUID non-nil; Pod: node, application, service non-nil and container
nil; PodContainer: application, service, container non-nil, and node non-nil
except for the post-fan-out per-container spec absolutes (`appSpecList`),
which carry a nil node UUID. -/
theorem C2_amended_identifier_scope (inp : ScrapeInput)
    (hnodes : ∀ n ∈ inp.nodes, n.id ≠ 0)
    (hscan : ScannerIdsOk inp.scanner)
    (happs : AppsIdsOk inp.apps) :
    (∀ m ∈ (getMetrics inp).metrics,
      uuidScope m ∧ (m.type = TypePodContainer → m.node ≠ 0 ∨ m ∈ appSpecList inp)) ∧
    (∀ m ∈ appSpecList inp, m.type = TypePodContainer ∧ m.node = 0) := by
  refine ⟨?_, fun m hm =>
    ⟨(appSpecList_shape inp m hm).1, (appSpecList_shape inp m hm).2.1⟩⟩
  intro m hm
  have hms : (getMetrics inp).metrics
      = (runNodesSt (scrapeEnv inp) inp.nodes (snapshotSt inp)).metrics := by
    unfold getMetrics
    rw [runNodes_fst]
  rw [hms] at hm
  obtain ⟨extra, he, hp⟩ :=
    runNodesSt_metrics (scrapeEnv inp) inp.nodes hscan hnodes (snapshotSt inp)
  rw [he] at hm
  rcases List.mem_append.mp hm with hm | hm
  · exact snapshotSt_scope inp hnodes happs m hm
  · obtain ⟨h1, h2⟩ := hp m hm
    exact ⟨h1, fun hty => Or.inl (h2 hty)⟩

/-! ### Claim C3 -/

/-- C3: the failure of one node's task (summary scrape or parse error) leaves
`GetMetrics` returning no error, and the batch equals the snapshot-derived
metrics plus the fan-out over the remaining nodes — the failed node
contributes nothing and disturbs nothing. -/
theorem C3_node_failure_keeps_partial_batch (inp : ScrapeInput)
    (pre post : List KuberNode) (bad : KuberNode) (e : String)
    (hnodes : inp.nodes = pre ++ bad :: post)
    (hbad : inp.fetchSummary bad = .error e) :
    (getMetrics inp).errOut = none ∧
    (getMetrics inp).metrics =
      (runNodesSt (scrapeEnv inp) (pre ++ post) (snapshotSt inp)).metrics := by
  refine ⟨rfl, ?_⟩
  have h1 : (getMetrics inp).metrics
      = (runNodesSt (scrapeEnv inp) inp.nodes (snapshotSt inp)).metrics := by
    unfold getMetrics
    rw [runNodes_fst]
  have h3 : ∀ st, runNodesSt (scrapeEnv inp) [bad] st = st := by
    intro st
    have hpn : processNode (scrapeEnv inp) bad st = (st, some e) :=
      processNode_summary_error _ _ _ _ hbad
    simp [runNodesSt, hpn]
  have h2 : pre ++ bad :: post = pre ++ [bad] ++ post := by simp
  rw [h1, hnodes, h2, runNodesSt_append (scrapeEnv inp) (pre ++ [bad]) post,
    runNodesSt_append (scrapeEnv inp) pre [bad], h3,
    ← runNodesSt_append (scrapeEnv inp) pre post]

/-- Input exhibiting the C2 violation: no nodes, one snapshot application
with non-nil identifiers. -/
def c2Input : ScrapeInput :=
  { nodes := [], nodesScanTime := 1000,
    apps := [{ id := 1, services := [{ id := 2, containers :=
      [{ id := 3, requestsCpuMilli := 100, limitsCpuMilli := 200,
         requestsMemory := 300, limitsMemory := 400 }] }] }],
    appsScanTime := 1000,
    scanner := { findService := fun _ _ => none,
                 findContainer := fun _ _ _ => none,
                 findContainerByPodUID := fun _ _ => none },
    fetchSummary := fun _ => .error "unused",
    fetchCadvisor := fun _ => .error "unused",
    tickTime := 1111, now := 2222, previous := [] }

/-- C2 as stated is false: the post-fan-out per-container spec absolutes are
`PodContainer` records whose node UUID is nil (`GetMetrics` passes `uuid.Nil`
for them), so not every `PodContainer` record carries four non-nil UUIDs. -/
theorem C2_counterexample :
    ∃ m ∈ (getMetrics c2Input).metrics,
      m.type = TypePodContainer ∧ m.node = 0 ∧
      m.application ≠ 0 ∧ m.service ≠ 0 ∧ m.container ≠ 0 := by
  decide

def c2WitnessScanner : ScannerModel :=
  { findService := fun _ _ => some (11, 12),
    findContainer := fun _ _ _ => some (11, 12,
      { id := 13, requestsCpuMilli := 1, limitsCpuMilli := 2,
        requestsMemory := 3, limitsMemory := 4 }),
    findContainerByPodUID := fun _ _ => some (11, 12, 13) }

def c2WitnessSummary : KubeletSummary :=
  { node := { cpu := ⟨7000000000, 100⟩, memory := ⟨7000000000, 200⟩,
              fs := ⟨7000000000, 10, 20⟩,
              network := ⟨7000000000, 1, 2, 3, 4⟩ },
    pods := [{ podRef := { name := "web-1", namespc := "default" },
               containers := [{ name := "web", startTime := 1000,
                                cpu := ⟨7000000000, 50⟩, memory := ⟨7000000000, 60⟩,
                                rootFS := ⟨7000000000, 70⟩ }],
               network := ⟨7000000000, 5, 6, 7, 8⟩ }] }

def c2WitnessInput : ScrapeInput :=
  { nodes := [{ id := 21, name := "n1", instanceType := "m4", instanceSize := "large",
                capacityCPU := 4000, capacityMemory := 16,
                allocatableCPU := 3900, allocatableMemory := 15 }],
    nodesScanTime := 1000,
    apps := [{ id := 1, services := [{ id := 2, containers :=
      [{ id := 3, requestsCpuMilli := 100, limitsCpuMilli := 200,
         requestsMemory := 300, limitsMemory := 400 }] }] }],
    appsScanTime := 1000,
    scanner := c2WitnessScanner,
    fetchSummary := fun _ => .ok c2WitnessSummary,
    fetchCadvisor := fun _ => .ok (fun _ =>
      [{ ok := true, podUID := "uid", containerName := "web", value := 42 }]),
    tickTime := 1111, now := 2222, previous := [] }

/-- Witness for C2 amended at a concrete run exercising node, pod, container
and throttle emissions together with the post-fan-out spec absolutes. -/
theorem C2_amended_identifier_scope_witness :
    (∀ m ∈ (getMetrics c2WitnessInput).metrics,
      uuidScope m ∧
        (m.type = TypePodContainer → m.node ≠ 0 ∨ m ∈ appSpecList c2WitnessInput)) ∧
    (∀ m ∈ appSpecList c2WitnessInput, m.type = TypePodContainer ∧ m.node = 0) :=
  C2_amended_identifier_scope c2WitnessInput
    (by decide)
    ⟨by
      intro ns pod a s h
      have h' : (some (11, 12) : Option (Nat × Nat)) = some (a, s) := h
      simp only [Option.some.injEq, Prod.mk.injEq] at h'
      obtain ⟨ha, hs⟩ := h'
      exact ⟨by omega, by omega⟩,
     by
      intro ns pod cn a s ic h
      have h' : (some (11, 12,
          { id := 13, requestsCpuMilli := 1, limitsCpuMilli := 2,
            requestsMemory := 3, limitsMemory := 4 })
            : Option (Nat × Nat × SContainer)) = some (a, s, ic) := h
      simp only [Option.some.injEq, Prod.mk.injEq] at h'
      obtain ⟨ha, hs, hic⟩ := h'
      refine ⟨by omega, by omega, ?_⟩
      rw [← hic]
      decide⟩
    (by
      intro app happ
      have happ' : app ∈ [({ id := 1, services := [{ id := 2, containers :=
        [{ id := 3, requestsCpuMilli := 100, limitsCpuMilli := 200,
           requestsMemory := 300, limitsMemory := 400 }] }] } : App)] := happ
      simp only [List.mem_singleton] at happ'
      subst happ'
      refine ⟨by decide, ?_⟩
      intro service hsvc
      simp only [List.mem_singleton] at hsvc
      subst hsvc
      refine ⟨by decide, ?_⟩
      intro c hcm
      simp only [List.mem_singleton] at hcm
      subst hcm
      decide)

/-- Witness for C3: a single node whose summary fetch fails; the returned
batch is exactly the snapshot-derived part and the error value is nil. -/
def c3BadNode : KuberNode :=
  { id := 31, name := "bad", instanceType := "", instanceSize := "",
    capacityCPU := 0, capacityMemory := 0, allocatableCPU := 0, allocatableMemory := 0 }

def c3Input : ScrapeInput :=
  { nodes := [c3BadNode], nodesScanTime := 1000,
    apps := [{ id := 1, services := [{ id := 2, containers :=
      [{ id := 3, requestsCpuMilli := 100, limitsCpuMilli := 200,
         requestsMemory := 300, limitsMemory := 400 }] }] }],
    appsScanTime := 1000,
    scanner := { findService := fun _ _ => none,
                 findContainer := fun _ _ _ => none,
                 findContainerByPodUID := fun _ _ => none },
    fetchSummary := fun _ => .error "boom",
    fetchCadvisor := fun _ => .error "boom",
    tickTime := 1, now := 2, previous := [] }

theorem C3_node_failure_keeps_partial_batch_witness :
    (getMetrics c3Input).errOut = none ∧
    (getMetrics c3Input).metrics =
      (runNodesSt (scrapeEnv c3Input) ([] ++ []) (snapshotSt c3Input)).metrics :=
  C3_node_failure_keeps_partial_batch c3Input [] [] c3BadNode "boom" rfl rfl

end Agent
